import Mathlib

/-!
# ChatWave core: shallow embedding and verification

This file embeds the understanding-and-decision pipeline of the ChatWave
travel assistant — the rule-based NLP engine (`server/src/nlp/engine.js`),
the route scorer (`routePlanner.js`) and the chat orchestrator
(`chatService.js`) — and proves/refutes the frozen claims about it.

Modelling conventions:
* JavaScript numbers are modelled as `ℚ` (scores, prices, durations) or
  `Nat`/`Int` (counters, indices, epoch days).
* The JS regular expressions of the engine are transcribed into a small
  executable regex interpreter (`Regex`, `mrun`, `searchFrom`) supporting
  the constructs the source uses: character classes, alternation,
  concatenation, greedy/lazy repetition, `?`, word boundaries `\b`,
  end anchor `$` and capture groups.  Case-insensitive matching is
  reflected by the fact that the engine lowercases its input before
  every test, so patterns are transcribed with lowercase literals.
* The ambient clock (`new Date()`) is passed explicitly as a `CivilNow`
  parameter; `Date` values are modelled as epoch-day numbers (`Int`).
* The canned display strings produced by `ResponseGenerator` are
  rendering; responses are modelled by the structured branch taken
  (`Response`), each constructor carrying the data the corresponding
  string is built from.
* External collaborators (SQL route lookup, durable message log) are
  oracle parameters, as the specification treats them as out of scope.
-/

/-! ## A small executable regex interpreter -/

/-- Regular expressions, as used by the engine's pattern databases. -/
inductive Regex where
  | eps
  | cls (p : Char → Bool)
  | cat (a b : Regex)
  | alt (a b : Regex)
  | star (r : Regex)
  | lazyStar (r : Regex)
  | opt (r : Regex)
  | bnd
  | eos
  | grp (n : Nat) (r : Regex)

/-- Captured groups: group number paired with captured text. -/
abbrev Caps := List (Nat × String)

def isWordChar (c : Char) : Bool := c.isAlphanum || c == '_'

def wordB : Option Char → Bool
  | some c => isWordChar c
  | none => false

def wordNext : List Char → Bool
  | c :: _ => isWordChar c
  | [] => false

/-- Backtracking matcher.  `mrun fuel r prev s caps` returns, in
backtracking order (greedy alternatives first, lazy ones last), the
states `(previous char, remaining input, captures)` reachable by
matching `r` at the head of `s`; `prev` is the character before the
current position (for `\b`).  `fuel` bounds the recursion depth and is
chosen large enough (see `mrunFuel`) that it is never exhausted; the
recursion is structural so that matching computes inside the kernel. -/
def mrun : Nat → Regex → Option Char → List Char → Caps →
    List (Option Char × List Char × Caps)
  | 0, _, _, _, _ => []
  | f + 1, r, prev, s, caps =>
    match r with
    | .eps => [(prev, s, caps)]
    | .cls p =>
      match s with
      | [] => []
      | c :: cs => if p c then [(some c, cs, caps)] else []
    | .cat a b => (mrun f a prev s caps).flatMap (fun t => mrun f b t.1 t.2.1 t.2.2)
    | .alt a b => mrun f a prev s caps ++ mrun f b prev s caps
    | .opt a => mrun f a prev s caps ++ [(prev, s, caps)]
    | .star a =>
      ((mrun f a prev s caps).flatMap (fun t => mrun f (.star a) t.1 t.2.1 t.2.2)) ++
        [(prev, s, caps)]
    | .lazyStar a =>
      (prev, s, caps) :: (mrun f a prev s caps).flatMap (fun t => mrun f (.lazyStar a) t.1 t.2.1 t.2.2)
    | .bnd => if wordB prev != wordNext s then [(prev, s, caps)] else []
    | .eos => if s.isEmpty then [(prev, s, caps)] else []
    | .grp n a =>
      (mrun f a prev s caps).map
        (fun t => (t.1, t.2.1, t.2.2 ++ [(n, String.mk (s.take (s.length - t.2.1.length)))]))

/-- Number of constructors of a regex. -/
def rsize : Regex → Nat
  | .eps | .cls _ | .bnd | .eos => 1
  | .cat a b | .alt a b => rsize a + rsize b + 1
  | .star a | .lazyStar a | .opt a | .grp _ a => rsize a + 1

/-- A recursion-depth budget that `mrun` never exhausts on the engine's
patterns (every starred subexpression of the pattern databases consumes
at least one character per iteration). -/
def mrunFuel (r : Regex) (s : List Char) : Nat := (rsize r + 2) * (s.length + 2)

/-- Unanchored search: try to match at each position, left to right,
returning the captures of the first (leftmost) match. -/
def searchFrom (r : Regex) (prev : Option Char) : List Char → Option Caps
  | [] =>
    match mrun (mrunFuel r []) r prev [] [] with
    | t :: _ => some t.2.2
    | [] => none
  | c :: cs =>
    match mrun (mrunFuel r (c :: cs)) r prev (c :: cs) [] with
    | t :: _ => some t.2.2
    | [] => searchFrom r (some c) cs

/-- A pattern of the engine's databases: the regex plus whether the
source regex was anchored at the start (`^...`). -/
structure RPat where
  anchored : Bool
  re : Regex

/-- `pattern.test(text)` of JavaScript. -/
def testPat (text : List Char) (p : RPat) : Bool :=
  if p.anchored then !(mrun (mrunFuel p.re text) p.re none text []).isEmpty
  else (searchFrom p.re none text).isSome

/-- `text.match(re)` of JavaScript, reduced to the captures of the
first match (`none` when there is no match). -/
def rmatch (r : Regex) (text : String) : Option Caps :=
  searchFrom r none text.toList

/-- Read a capture group out of a match result. -/
def capt (caps : Caps) (n : Nat) : Option String := caps.lookup n

/-- `s.toLowerCase()`, computed on the character list (the core
`String.toLower` is not kernel-reducible). -/
def lowerStr (s : String) : String := String.mk (s.data.map Char.toLower)

/-- `s.trim()`: strip whitespace from both ends. -/
def trimStr (s : String) : String :=
  String.mk (((s.data.dropWhile Char.isWhitespace).reverse.dropWhile Char.isWhitespace).reverse)

/-- `s.startsWith(pre)`. -/
def strStartsWith (s pre : String) : Bool := pre.data.isPrefixOf s.data

/-! ### Regex construction helpers -/

def chr (c : Char) : Regex := .cls (· == c)

def lit (s : String) : Regex := s.toList.foldr (fun c r => .cat (chr c) r) .eps

def alts : List Regex → Regex
  | [] => .eps
  | [r] => r
  | r :: rs => .alt r (alts rs)

def wsCls : Regex := .cls Char.isWhitespace
def wsStar : Regex := .star wsCls
def wsPlus : Regex := .cat wsCls wsStar
def digitCls : Regex := .cls Char.isDigit
def wordCls : Regex := .cls isWordChar
def wordPlus : Regex := .cat wordCls (.star wordCls)
def dotCls : Regex := .cls (fun c => c != '\n' && c != '\r')
/-- The class `[a-z\s]` (the engine always matches lowercased text). -/
def azwsCls : Regex := .cls (fun c => ('a' ≤ c && c ≤ 'z') || c.isWhitespace)
/-- Lazy `[a-z\s]+?`. -/
def azwsLazyPlus : Regex := .cat azwsCls (.lazyStar azwsCls)
/-- Wrap a regex in word boundaries, `\b(...)\b`. -/
def bndWrap (r : Regex) : Regex := .cat .bnd (.cat r .bnd)
/-- The apostrophe character. -/
def apos : Char := Char.ofNat 39

/-! ## Intent pattern database (`INTENT_PATTERNS`) -/

/-- `/^(hi|hello|hey|howdy|hola|good\s*(morning|afternoon|evening|day)|namaste|namaskar)/i` -/
def greetingPat1 : RPat :=
  ⟨true, alts [lit "hi", lit "hello", lit "hey", lit "howdy", lit "hola",
    .cat (lit "good") (.cat wsStar (alts [lit "morning", lit "afternoon", lit "evening", lit "day"])),
    lit "namaste", lit "namaskar"]⟩

/-- `/^(what'?s?\s*up|yo|sup)/i` -/
def greetingPat2 : RPat :=
  ⟨true, alts [.cat (lit "what") (.cat (.opt (chr apos)) (.cat (.opt (chr 's')) (.cat wsStar (lit "up")))),
    lit "yo", lit "sup"]⟩

/-- `/\b(bye|goodbye|see\s*you|take\s*care|ciao|later|ttyl)\b/i` -/
def goodbyePat1 : RPat :=
  ⟨false, bndWrap (alts [lit "bye", lit "goodbye",
    .cat (lit "see") (.cat wsStar (lit "you")),
    .cat (lit "take") (.cat wsStar (lit "care")),
    lit "ciao", lit "later", lit "ttyl"])⟩

/-- `/\b(thanks?|thank\s*you|thx|ty|appreciate|grateful|dhanyavaad)\b/i` -/
def thanksPat1 : RPat :=
  ⟨false, bndWrap (alts [.cat (lit "thank") (.opt (chr 's')),
    .cat (lit "thank") (.cat wsStar (lit "you")),
    lit "thx", lit "ty", lit "appreciate", lit "grateful", lit "dhanyavaad"])⟩

/-- `/\b(help|assist|support|how\s*(do|can|to)|what\s*can\s*you|guide|tutorial)\b/i` -/
def helpPat1 : RPat :=
  ⟨false, bndWrap (alts [lit "help", lit "assist", lit "support",
    .cat (lit "how") (.cat wsStar (alts [lit "do", lit "can", lit "to"])),
    .cat (lit "what") (.cat wsStar (.cat (lit "can") (.cat wsStar (lit "you")))),
    lit "guide", lit "tutorial"])⟩

/-- `/\bwhat\s*(do|can)\s*you\s*do\b/i` -/
def helpPat2 : RPat :=
  ⟨false, .cat .bnd (.cat (lit "what") (.cat wsStar (.cat (alts [lit "do", lit "can"])
    (.cat wsStar (.cat (lit "you") (.cat wsStar (.cat (lit "do") .bnd)))))))⟩

/-- `/\b(how\s*much|price|cost|fare|charge|rate|ticket\s*price|expensive|cheap|budget)\b/i` -/
def pricePat1 : RPat :=
  ⟨false, bndWrap (alts [.cat (lit "how") (.cat wsStar (lit "much")),
    lit "price", lit "cost", lit "fare", lit "charge", lit "rate",
    .cat (lit "ticket") (.cat wsStar (lit "price")),
    lit "expensive", lit "cheap", lit "budget"])⟩

/-- `/\b(when|what\s*time|schedule|timing|departure|arrival|next\s*(train|bus)|timetable)\b/i` -/
def schedulePat1 : RPat :=
  ⟨false, bndWrap (alts [lit "when",
    .cat (lit "what") (.cat wsStar (lit "time")),
    lit "schedule", lit "timing", lit "departure", lit "arrival",
    .cat (lit "next") (.cat wsStar (alts [lit "train", lit "bus"])),
    lit "timetable"])⟩

/-- `/\b(compare|comparison|difference|vs|versus|which\s*is\s*(better|faster|cheaper)|between)\b/i` -/
def comparePat1 : RPat :=
  ⟨false, bndWrap (alts [lit "compare", lit "comparison", lit "difference", lit "vs", lit "versus",
    .cat (lit "which") (.cat wsStar (.cat (lit "is")
      (.cat wsStar (alts [lit "better", lit "faster", lit "cheaper"])))),
    lit "between"])⟩

/-- `/\b(select|choose|book|pick|go\s*with|option\s*\d|i('ll|\s*will)\s*(take|choose|go\s*with))\b/i` -/
def selectPat1 : RPat :=
  ⟨false, bndWrap (alts [lit "select", lit "choose", lit "book", lit "pick",
    .cat (lit "go") (.cat wsStar (lit "with")),
    .cat (lit "option") (.cat wsStar digitCls),
    .cat (chr 'i') (.cat (alts [.cat (chr apos) (.cat (chr 'l') (chr 'l')),
      .cat wsStar (lit "will")])
      (.cat wsStar (alts [lit "take", lit "choose", .cat (lit "go") (.cat wsStar (lit "with"))])))])⟩

/-- `/\b(number|#)\s*\d\b/i` -/
def selectPat2 : RPat :=
  ⟨false, .cat .bnd (.cat (alts [lit "number", chr '#']) (.cat wsStar (.cat digitCls .bnd)))⟩

/-- `/\b(prefer|want|looking\s*for|need\s*a?|fastest|cheapest|quickest|comfortable|direct)\b/i` -/
def preferencePat1 : RPat :=
  ⟨false, bndWrap (alts [lit "prefer", lit "want",
    .cat (lit "looking") (.cat wsStar (lit "for")),
    .cat (lit "need") (.cat wsStar (.opt (chr 'a'))),
    lit "fastest", lit "cheapest", lit "quickest", lit "comfortable", lit "direct"])⟩

/-- `/\b(travel|go|going|trip|journey|route|from|to\b.*\bto\b|book|find\s*(a\s*)?(bus|train|route|trip))/i` -/
def travelPat1 : RPat :=
  ⟨false, .cat .bnd (alts [lit "travel", lit "go", lit "going", lit "trip", lit "journey",
    lit "route", lit "from",
    .cat (lit "to") (.cat .bnd (.cat (.star dotCls) (.cat .bnd (.cat (lit "to") .bnd)))),
    lit "book",
    .cat (lit "find") (.cat wsStar (.cat (.opt (.cat (chr 'a') wsStar))
      (alts [lit "bus", lit "train", lit "route", lit "trip"])))])⟩

/-- `/\b(bus|train|flight)\s*(from|to|between)\b/i` -/
def travelPat2 : RPat :=
  ⟨false, .cat .bnd (.cat (alts [lit "bus", lit "train", lit "flight"])
    (.cat wsStar (.cat (alts [lit "from", lit "to", lit "between"]) .bnd)))⟩

/-- `/\bfrom\s+\w+\s+to\s+\w+/i` -/
def travelPat3 : RPat :=
  ⟨false, .cat .bnd (.cat (lit "from") (.cat wsPlus (.cat wordPlus
    (.cat wsPlus (.cat (lit "to") (.cat wsPlus wordPlus))))))⟩

/-- `/\b(i\s*(want|need|have)\s*to\s*(go|travel|reach|visit|get\s*to))\b/i` -/
def travelPat4 : RPat :=
  ⟨false, bndWrap (.cat (chr 'i') (.cat wsStar (.cat (alts [lit "want", lit "need", lit "have"])
    (.cat wsStar (.cat (lit "to") (.cat wsStar
      (alts [lit "go", lit "travel", lit "reach", lit "visit",
        .cat (lit "get") (.cat wsStar (lit "to"))])))))))⟩

/-- `/\btake\s*me\s*(to|from)\b/i` -/
def travelPat5 : RPat :=
  ⟨false, .cat .bnd (.cat (lit "take") (.cat wsStar (.cat (lit "me")
    (.cat wsStar (.cat (alts [lit "to", lit "from"]) .bnd)))))⟩

/-- `INTENT_PATTERNS`, in the declaration order of the source object. -/
def INTENT_PATTERNS : List (String × List RPat) :=
  [("greeting", [greetingPat1, greetingPat2]),
   ("goodbye", [goodbyePat1]),
   ("thanks", [thanksPat1]),
   ("help", [helpPat1, helpPat2]),
   ("price_query", [pricePat1]),
   ("schedule_query", [schedulePat1]),
   ("compare_routes", [comparePat1]),
   ("select_route", [selectPat1, selectPat2]),
   ("route_preference", [preferencePat1]),
   ("travel_search", [travelPat1, travelPat2, travelPat3, travelPat4, travelPat5])]

/-! ## City alias table and `resolveCity` -/

/-- `CITY_ALIASES`, in the declaration order of the source object. -/
def CITY_ALIASES : List (String × String) :=
  [("mumbai", "Mumbai"), ("bombay", "Mumbai"), ("bom", "Mumbai"),
   ("delhi", "Delhi"), ("new delhi", "Delhi"), ("dilli", "Delhi"),
   ("pune", "Pune"), ("poona", "Pune"),
   ("bangalore", "Bangalore"), ("bengaluru", "Bangalore"), ("blr", "Bangalore"),
   ("chennai", "Chennai"), ("madras", "Chennai"),
   ("hyderabad", "Hyderabad"), ("hyd", "Hyderabad"),
   ("kolkata", "Kolkata"), ("calcutta", "Kolkata"), ("cal", "Kolkata"),
   ("jaipur", "Jaipur"),
   ("ahmedabad", "Ahmedabad"), ("amd", "Ahmedabad"),
   ("goa", "Goa"), ("panaji", "Goa"),
   ("lucknow", "Lucknow")]

/-- `haystack.includes(needle)` of JavaScript. -/
def strIncludes (haystack needle : String) : Bool :=
  (haystack.toList.tails).any (fun t => needle.toList.isPrefixOf t)

/-- `text.replace(/[^a-z\s]/gi, '').trim().toLowerCase()`. -/
def cleanCity (text : String) : String :=
  lowerStr (trimStr (String.mk (text.toList.filter
    (fun c => ('a' ≤ c && c ≤ 'z') || ('A' ≤ c && c ≤ 'Z') || c.isWhitespace))))

/-- `resolveCity(text)`: strip non-letter non-space characters, trim,
lowercase; exact alias hit wins, else the first alias (table order)
related to the cleaned text by substring containment in either
direction; `null` (here `none`) when nothing matches. -/
def resolveCity (text : String) : Option String :=
  if text.data.isEmpty then none
  else
    match CITY_ALIASES.lookup (cleanCity text) with
    | some city => some city
    | none =>
      (CITY_ALIASES.find? (fun p =>
        strIncludes (cleanCity text) p.1 || strIncludes p.1 (cleanCity text))).map Prod.snd

/-! ## Location extraction (`extractLocations`) -/

/-- Common tail of the "from X to Y" / "X to Y" patterns:
`(?:\s+(?:by|on|in|at|tomorrow|today|next|this|$)|\s*$)`. -/
def locTail1 : Regex :=
  .alt (.cat wsPlus (alts [lit "by", lit "on", lit "in", lit "at",
    lit "tomorrow", lit "today", lit "next", lit "this", .eos]))
    (.cat wsStar .eos)

/-- `/from\s+([a-z\s]+?)\s+to\s+([a-z\s]+?)(?:\s+(?:by|on|in|at|tomorrow|today|next|this|$)|\s*$)/i` -/
def fromToRe : Regex :=
  .cat (lit "from") (.cat wsPlus (.cat (.grp 1 azwsLazyPlus)
    (.cat wsPlus (.cat (lit "to") (.cat wsPlus (.cat (.grp 2 azwsLazyPlus) locTail1))))))

/-- `/([a-z\s]+?)\s+to\s+([a-z\s]+?)(?:\s+(?:by|on|in|at|tomorrow|today|next|this|$)|\s*$)/i` -/
def xToYRe : Regex :=
  .cat (.grp 1 azwsLazyPlus)
    (.cat wsPlus (.cat (lit "to") (.cat wsPlus (.cat (.grp 2 azwsLazyPlus) locTail1))))

/-- `/to\s+([a-z\s]+?)\s+from\s+([a-z\s]+?)(?:\s|$)/i` -/
def toFromRe : Regex :=
  .cat (lit "to") (.cat wsPlus (.cat (.grp 1 azwsLazyPlus)
    (.cat wsPlus (.cat (lit "from") (.cat wsPlus (.cat (.grp 2 azwsLazyPlus) (.alt wsCls .eos)))))))

/-- `/(?:go|going|travel|reach|visit|get)\s+(?:to\s+)?([a-z\s]+?)(?:\s+(?:by|on|in|at|from|tomorrow|today)|\s*$)/i` -/
def goToRe : Regex :=
  .cat (alts [lit "go", lit "going", lit "travel", lit "reach", lit "visit", lit "get"])
    (.cat wsPlus (.cat (.opt (.cat (lit "to") wsPlus))
      (.cat (.grp 1 azwsLazyPlus)
        (.alt (.cat wsPlus (alts [lit "by", lit "on", lit "in", lit "at",
          lit "from", lit "tomorrow", lit "today"])) (.cat wsStar .eos)))))

/-- `/from\s+([a-z\s]+?)(?:\s+(?:by|on|in|at|to|tomorrow|today)|\s*$)/i` -/
def fromRe : Regex :=
  .cat (lit "from") (.cat wsPlus (.cat (.grp 1 azwsLazyPlus)
    (.alt (.cat wsPlus (alts [lit "by", lit "on", lit "in", lit "at",
      lit "to", lit "tomorrow", lit "today"])) (.cat wsStar .eos))))

structure LocResult where
  origin : Option String := none
  destination : Option String := none

/-- Resolve a capture group through `resolveCity` after `.trim()`. -/
def resolveCapt (caps : Caps) (n : Nat) : Option String :=
  (capt caps n).bind (fun g => resolveCity (trimStr g))

/-- The "to B from A" pattern and the fall-through "go to B" / "from A"
patterns of `extractLocations` (tried after the first two patterns). -/
def extractLocationsRest (text : String) : LocResult :=
  match rmatch toFromRe text with
  | some caps => { destination := resolveCapt caps 1, origin := resolveCapt caps 2 }
  | none =>
    { destination := (rmatch goToRe text).bind (fun caps => resolveCapt caps 1),
      origin := (rmatch fromRe text).bind (fun caps => resolveCapt caps 1) }

/-- `extractLocations(text)`: the location surface patterns, in source
order.  "from A to B", then "A to B" (kept only when both sides
resolve), then "to B from A" — each of these returns immediately on a
match — and finally the fall-through pair "go/…/get (to) B" (destination
only) and "from A" (origin only), which are both attempted. -/
def extractLocations (text : String) : LocResult :=
  match rmatch fromToRe text with
  | some caps => { origin := resolveCapt caps 1, destination := resolveCapt caps 2 }
  | none =>
    match rmatch xToYRe text with
    | some caps =>
      let origin := resolveCapt caps 1
      let dest := resolveCapt caps 2
      if origin.isSome && dest.isSome then { origin := origin, destination := dest }
      else extractLocationsRest text
    | none => extractLocationsRest text

/-! ## Mode, class and budget extraction -/

/-- `/\b(train|railway|rail|express|rajdhani|shatabdi)\b/i` -/
def modeTrainPat : RPat :=
  ⟨false, bndWrap (alts [lit "train", lit "railway", lit "rail", lit "express",
    lit "rajdhani", lit "shatabdi"])⟩

/-- `/\b(bus|volvo|sleeper|msrtc|rsrtc|ksrtc)\b/i` -/
def modeBusPat : RPat :=
  ⟨false, bndWrap (alts [lit "bus", lit "volvo", lit "sleeper", lit "msrtc",
    lit "rsrtc", lit "ksrtc"])⟩

/-- `/\b(any|both|either|all)\s*(mode|transport|option)?\b/i` -/
def modeAnyPat : RPat :=
  ⟨false, .cat .bnd (.cat (alts [lit "any", lit "both", lit "either", lit "all"])
    (.cat wsStar (.cat (.opt (alts [lit "mode", lit "transport", lit "option"])) .bnd)))⟩

/-- `extractMode(text)`. -/
def extractMode (text : String) : Option String :=
  let t := text.toList
  if testPat t modeTrainPat then some "train"
  else if testPat t modeBusPat then some "bus"
  else if testPat t modeAnyPat then some "any"
  else none

/-- `extractClass(text)`: `/\b(first\s*class|1st\s*class|fc|1ac)\b/i` … -/
def extractClass (text : String) : Option String :=
  let t := text.toList
  if testPat t ⟨false, bndWrap (alts [.cat (lit "first") (.cat wsStar (lit "class")),
      .cat (lit "1st") (.cat wsStar (lit "class")), lit "fc", lit "1ac"])⟩ then some "first"
  else if testPat t ⟨false, bndWrap (alts [.cat (lit "second") (.cat wsStar (lit "class")),
      .cat (lit "2nd") (.cat wsStar (lit "class")), lit "2ac"])⟩ then some "second"
  else if testPat t ⟨false, bndWrap (alts [lit "sleeper", lit "sl", lit "3ac"])⟩ then some "sleeper"
  else if testPat t ⟨false, bndWrap (alts [lit "ac",
      .cat (lit "air") (.cat wsStar (lit "condition"))])⟩ then some "ac"
  else if testPat t ⟨false, bndWrap (alts [lit "general", lit "gen", lit "unreserved"])⟩ then
    some "general"
  else none

/-- `extractBudget(text)`: `/\b(cheap|budget|low\s*cost|affordable|economy|economical)\b/i` … -/
def extractBudget (text : String) : Option String :=
  let t := text.toList
  if testPat t ⟨false, bndWrap (alts [lit "cheap", lit "budget",
      .cat (lit "low") (.cat wsStar (lit "cost")), lit "affordable",
      lit "economy", lit "economical"])⟩ then some "budget"
  else if testPat t ⟨false, bndWrap (alts [lit "premium", lit "luxury", lit "comfortable",
      lit "best", lit "top", lit "vip"])⟩ then some "premium"
  else if testPat t ⟨false, bndWrap (alts [lit "moderate", lit "balanced", lit "mid",
      lit "medium"])⟩ then some "balanced"
  else none

/-! ## Date extraction (`extractDate`)

`new Date()` is passed explicitly: `CivilNow` carries the civil date of
"now" plus whether the current time of day is past midnight (the source
compares a midnight-normalized parsed date against the full current
timestamp).  Extracted dates (ISO date strings in the source) are
modelled as days since the Unix epoch. -/

structure CivilNow where
  year : Int
  month : Nat          -- 1..12
  day : Nat            -- 1..31
  pastMidnight : Bool  -- current time of day is strictly after 00:00
deriving DecidableEq, Repr

/-- Days since 1970-01-01 of a civil date (Gregorian), valid for
out-of-range days as in JavaScript's `Date` overflow arithmetic. -/
def daysFromCivil (y : Int) (m : Nat) (d : Int) : Int :=
  let y' : Int := if m ≤ 2 then y - 1 else y
  let era : Int := (if 0 ≤ y' then y' else y' - 399) / 400
  let yoe : Int := y' - era * 400
  let mp : Int := if 2 < m then (m : Int) - 3 else (m : Int) + 9
  let doy : Int := (153 * mp + 2) / 5 + d - 1
  let doe : Int := yoe * 365 + yoe / 4 - yoe / 100 + doy
  era * 146097 + doe - 719468

def CivilNow.epochDay (n : CivilNow) : Int := daysFromCivil n.year n.month n.day

/-- `Date.prototype.getDay()`: 0 = Sunday. 1970-01-01 was a Thursday. -/
def CivilNow.dayOfWeek (n : CivilNow) : Int := (n.epochDay + 4) % 7

/-- `DATE_ALIASES`, in source order; `none` marks "this weekend"
(computed dynamically). -/
def DATE_ALIASES : List (String × Option Nat) :=
  [("today", some 0), ("tomorrow", some 1), ("day after tomorrow", some 2),
   ("day after", some 2), ("next week", some 7), ("this weekend", none)]

def DAY_NAMES : List String :=
  ["sunday", "monday", "tuesday", "wednesday", "thursday", "friday", "saturday"]

/-- Parse the leading decimal digits of a string (`parseInt`);
`none` when the string does not start with a digit (`NaN`). -/
def parseIntLead (s : String) : Option Nat :=
  let ds := s.toList.takeWhile Char.isDigit
  if ds.isEmpty then none
  else some (ds.foldl (fun n c => n * 10 + (c.toNat - 48)) 0)

/-- `/(\d{1,2})[\/\-\s]((?:\d{1,2}|jan|feb|mar|apr|may|jun|jul|aug|sep|oct|nov|dec)[a-z]*)/i` -/
def explicitDateRe : Regex :=
  .cat (.grp 1 (.cat digitCls (.opt digitCls)))
    (.cat (.cls (fun c => c == '/' || c == '-' || c.isWhitespace))
      (.grp 2 (.cat (alts [.cat digitCls (.opt digitCls),
        lit "jan", lit "feb", lit "mar", lit "apr", lit "may", lit "jun",
        lit "jul", lit "aug", lit "sep", lit "oct", lit "nov", lit "dec"])
        (.star (.cls (fun c => 'a' ≤ c && c ≤ 'z'))))))

def monthNames : List String :=
  ["jan", "feb", "mar", "apr", "may", "jun", "jul", "aug", "sep", "oct", "nov", "dec"]

/-- The explicit-date branch of `extractDate` (day plus numeric or
abbreviated month; a date already in the past is moved one year ahead). -/
def explicitDateBranch (now : CivilNow) (text : String) : Option Int :=
  match rmatch explicitDateRe text with
  | none => none
  | some caps =>
    match capt caps 1, capt caps 2 with
    | some g1, some g2 =>
      match parseIntLead g1 with
      | none => none
      | some day =>
        let monthStr := lowerStr g2
        let monthOpt : Option Nat :=
          match monthNames.findIdx? (fun m => strStartsWith monthStr m) with
          | some i => some i
          | none => (parseIntLead monthStr).map (fun n => n - 1)
        match monthOpt with
        | none => none
        | some month =>
          if month ≤ 11 then
            let date := daysFromCivil now.year (month + 1) (day : Int)
            if date < now.epochDay || (date = now.epochDay && now.pastMidnight) then
              some (daysFromCivil (now.year + 1) (month + 1) (day : Int))
            else some date
          else none
    | _, _ => none

/-- `extractDate(text)`: relative aliases first (in table order, by
substring containment), then weekday names (next strict future
occurrence), then explicit day/month tokens. -/
def extractDate (now : CivilNow) (text : String) : Option Int :=
  match DATE_ALIASES.find? (fun p => strIncludes text p.1) with
  | some (_, some offset) => some (now.epochDay + offset)
  | some (_, none) =>
    -- "this weekend": days until Saturday, a full week when today is Saturday
    let dow := now.dayOfWeek
    let daysUntilSat := (6 - dow + 7) % 7
    let daysUntilSat := if daysUntilSat = 0 then 7 else daysUntilSat
    some (now.epochDay + daysUntilSat)
  | none =>
    match (DAY_NAMES.enum).find? (fun p => strIncludes text p.2) with
    | some (i, _) =>
      let daysAhead := (i : Int) - now.dayOfWeek
      let daysAhead := if daysAhead ≤ 0 then daysAhead + 7 else daysAhead
      some (now.epochDay + daysAhead)
    | none => explicitDateBranch now text

/-! ## Time extraction (`extractTime`) -/

/-- A labelled clock interval or anchor time (`TIME_PATTERNS` entries /
explicit-time results).  The `end` key of the source is `endT`. -/
structure TimeRange where
  start : String
  endT : Option String
  label : String
deriving DecidableEq, Repr

/-- `TIME_PATTERNS`, in source order. -/
def TIME_PATTERNS : List (String × TimeRange) :=
  [("morning", ⟨"06:00", some "12:00", "morning"⟩),
   ("afternoon", ⟨"12:00", some "17:00", "afternoon"⟩),
   ("evening", ⟨"17:00", some "21:00", "evening"⟩),
   ("night", ⟨"21:00", some "06:00", "night"⟩),
   ("early", ⟨"04:00", some "08:00", "early morning"⟩),
   ("late", ⟨"20:00", some "23:59", "late night"⟩)]

/-- `/(?:at|around|by|before|after)\s*(\d{1,2})(?::(\d{2}))?\s*(am|pm)?/i` -/
def explicitTimeRe : Regex :=
  .cat (alts [lit "at", lit "around", lit "by", lit "before", lit "after"])
    (.cat wsStar (.cat (.grp 1 (.cat digitCls (.opt digitCls)))
      (.cat (.opt (.cat (chr ':') (.grp 2 (.cat digitCls digitCls))))
        (.cat wsStar (.opt (.grp 3 (alts [lit "am", lit "pm"])))))))

/-- `hour.toString().padStart(2, '0')`. -/
def pad2 (n : Nat) : String := if n < 10 then "0" ++ toString n else toString n

/-- `extractTime(text)`: keyword intervals first (substring containment,
table order), else an explicit clock expression normalized to 24h. -/
def extractTime (text : String) : Option TimeRange :=
  match TIME_PATTERNS.find? (fun p => strIncludes text p.1) with
  | some (_, range) => some range
  | none =>
    match rmatch explicitTimeRe text with
    | none => none
    | some caps =>
      match (capt caps 1).bind parseIntLead with
      | none => none
      | some hour0 =>
        let minutes := (capt caps 2).getD "00"
        let ampm := capt caps 3
        let hour := if ampm = some "pm" && hour0 < 12 then hour0 + 12 else hour0
        let hour := if ampm = some "am" && hour = 12 then 0 else hour
        some ⟨pad2 hour ++ ":" ++ minutes, none, "around " ++ toString hour ++ ":" ++ minutes⟩

/-! ## Entities, merging and `extractEntities` -/

/-- The entity slot set.  A slot is present exactly when the source
object has a (truthy) value for it. -/
structure Entities where
  origin : Option String := none
  destination : Option String := none
  mode : Option String := none
  date : Option Int := none
  timePreference : Option TimeRange := none
  seatClass : Option String := none
  budgetPreference : Option String := none
deriving DecidableEq, Repr

/-- Overwrite with the new value only when one is present. -/
def keepOr {α : Type} (newV oldV : Option α) : Option α :=
  match newV with
  | some v => some v
  | none => oldV

/-- `mergeWithContext(entities, context)`: start from a copy of the
context and overwrite each slot only when the newly extracted value is
present (non-null). -/
def mergeWithContext (entities context : Entities) : Entities :=
  { origin := keepOr entities.origin context.origin,
    destination := keepOr entities.destination context.destination,
    mode := keepOr entities.mode context.mode,
    date := keepOr entities.date context.date,
    timePreference := keepOr entities.timePreference context.timePreference,
    seatClass := keepOr entities.seatClass context.seatClass,
    budgetPreference := keepOr entities.budgetPreference context.budgetPreference }

/-- The slot record assembled by `extractEntities` before the context
merge (each `if (x) entities.k = x` guard). -/
def rawEntities (now : CivilNow) (message : String) : Entities :=
  let normalized := trimStr (lowerStr message)
  let locations := extractLocations normalized
  { origin := locations.origin,
    destination := locations.destination,
    mode := extractMode normalized,
    date := extractDate now normalized,
    timePreference := extractTime normalized,
    seatClass := extractClass normalized,
    budgetPreference := extractBudget normalized }

/-- `extractEntities(message, context)`. -/
def extractEntities (now : CivilNow) (message : String) (context : Entities) : Entities :=
  mergeWithContext (rawEntities now message) context

/-! ## Intent detection (`detectIntent`) -/

structure IntentResult where
  intent : String
  confidence : ℚ
deriving DecidableEq, Repr

/-- The per-intent raw scores: for each intent, the number of its
patterns that match the normalized text (all patterns are tried). -/
def intentRawScores (normalized : String) : List (String × Nat) :=
  INTENT_PATTERNS.map (fun p => (p.1, p.2.countP (testPat normalized.toList)))

/-- The `travel_search` +2 boost applied when a location entity is
present, before the maximum is taken. -/
def applyEntityBoost (scores : List (String × Nat)) (entities : Entities) :
    List (String × Nat) :=
  if entities.origin.isSome || entities.destination.isSome then
    scores.map (fun p => if p.1 = "travel_search" then (p.1, p.2 + 2) else p)
  else scores

/-- One step of the max-score scan: replace the running best only on a
strictly greater score (`score > maxScore`). -/
def pickStep (acc : Nat × String) (p : String × Nat) : Nat × String :=
  if acc.1 < p.2 then (p.2, p.1) else acc

/-- The max-score scan: start from `(0, 'unknown')` and keep the first
intent that strictly exceeds the running maximum (ties resolve to the
earlier-declared intent). -/
def pickBest (scores : List (String × Nat)) : Nat × String :=
  scores.foldl pickStep (0, "unknown")

/-- `detectIntent(message, entities)`. -/
def detectIntent (message : String) (entities : Entities) : IntentResult :=
  let normalized := trimStr (lowerStr message)
  let scores := applyEntityBoost (intentRawScores normalized) entities
  let mb := pickBest scores
  let best :=
    if mb.1 = 0 && (entities.origin.isSome || entities.destination.isSome) then "travel_search"
    else mb.2
  ⟨best, min ((mb.1 : ℚ) / 3) 1⟩

/-! ## Routes and the route scorer (`RoutePlanner`) -/

/-- A scheduled departure attached to a route. -/
structure Schedule where
  departure_time : String
  arrival_time : String
  platform : Option String := none
deriving DecidableEq, Repr

/-- A candidate route as returned by the lookup collaborator. -/
structure Route where
  id : String
  mode : String
  operator : String
  route_name : String
  base_price : ℚ
  duration_minutes : ℚ
  distance_km : Option ℚ := none
  origin_station : String := ""
  dest_station : String := ""
  schedules : List Schedule := []
deriving DecidableEq, Repr

/-- A route after scoring: the source mutates each route, adding
`_score` and `_tags`; here `score` and `tags`. -/
structure ScoredRoute extends Route where
  score : ℚ
  tags : List String
deriving DecidableEq, Repr

/-- `Math.min(...l)` over a non-empty list (the scorer guards
emptiness before using it). -/
def listMin (l : List ℚ) : ℚ :=
  match l with
  | [] => 0
  | x :: xs => xs.foldl min x

/-- `Math.max(...l)` over a non-empty list. -/
def listMax (l : List ℚ) : ℚ :=
  match l with
  | [] => 0
  | x :: xs => xs.foldl max x

/-- Scoring weights for the four factors. -/
structure ScoreWeights where
  price : ℚ
  duration : ℚ
  schedule : ℚ
  operator : ℚ
deriving DecidableEq, Repr

/-- The weight profile selected by `budgetPreference`. -/
def weightsFor (budgetPreference : Option String) : ScoreWeights :=
  if budgetPreference = some "budget" then ⟨0.5, 0.25, 0.15, 0.1⟩
  else if budgetPreference = some "premium" then ⟨0.1, 0.3, 0.2, 0.4⟩
  else ⟨0.3, 0.3, 0.2, 0.2⟩

/-- Normalized price factor (lower is better, inverted). -/
def priceScore (minPrice maxPrice p : ℚ) : ℚ :=
  if maxPrice = minPrice then 1 else 1 - (p - minPrice) / (maxPrice - minPrice)

/-- Normalized duration factor (shorter is better, inverted). -/
def durationScore (minDuration maxDuration d : ℚ) : ℚ :=
  if maxDuration = minDuration then 1 else 1 - (d - minDuration) / (maxDuration - minDuration)

/-- Schedule convenience factor, capped at 5 departures. -/
def scheduleScore (scheduleCount : Nat) : ℚ := min ((scheduleCount : ℚ) / 5) 1

/-- `getOperatorScore(operator)`: static reputation table, default 0.5. -/
def getOperatorScore (operator : String) : ℚ :=
  if operator = "Indian Railways" then 0.85
  else if operator = "MSRTC" then 0.7
  else if operator = "RSRTC" then 0.65
  else if operator = "KSRTC" then 0.75
  else if operator = "APSRTC" then 0.7
  else if operator = "UPSRTC" then 0.6
  else if operator = "Neeta Travels" then 0.8
  else if operator = "Paulo Travels" then 0.85
  else if operator = "VRL Travels" then 0.8
  else if operator = "Eagle Travels" then 0.7
  else if operator = "Orange Travels" then 0.75
  else 0.5

/-- Score one route against the set minima/maxima and a weight profile
(the loop body of `scoreRoutes`). -/
def scoreOne (w : ScoreWeights) (minPrice maxPrice minDuration maxDuration : ℚ)
    (r : Route) : ScoredRoute :=
  let ps := priceScore minPrice maxPrice r.base_price
  let ds := durationScore minDuration maxDuration r.duration_minutes
  let scheduleCount := r.schedules.length
  let ss := scheduleScore scheduleCount
  let os := getOperatorScore r.operator
  { r with
    score := w.price * ps + w.duration * ds + w.schedule * ss + w.operator * os,
    tags := (if r.base_price = minPrice then ["cheapest"] else []) ++
            (if r.duration_minutes = minDuration then ["fastest"] else []) ++
            (if 4 ≤ scheduleCount then ["frequent"] else []) }

/-- `RoutePlanner.scoreRoutes(routes, entities)`. -/
def scoreRoutes (routes : List Route) (entities : Entities) : List ScoredRoute :=
  match routes with
  | [] => []
  | _ :: _ =>
    let prices := routes.map (·.base_price)
    let durations := routes.map (·.duration_minutes)
    let w := weightsFor entities.budgetPreference
    routes.map (scoreOne w (listMin prices) (listMax prices) (listMin durations) (listMax durations))

/-- Stable insertion of one route into a score-descending list
(equal scores keep input order). -/
def insertDesc (r : ScoredRoute) : List ScoredRoute → List ScoredRoute
  | [] => [r]
  | x :: xs => if x.score < r.score then r :: x :: xs else x :: insertDesc r xs

/-- `routes.sort((a, b) => b._score - a._score)` — a stable sort by
score descending (Array.prototype.sort is stable). -/
def sortByScoreDesc (l : List ScoredRoute) : List ScoredRoute := l.foldr insertDesc []

/-- A recommendation callout (display text is rendering; the structured
content is the type tag, the referenced route and the count). -/
structure Recommendation where
  rtype : String
  routeId : Option String := none
  count : Option Nat := none
deriving DecidableEq, Repr

/-- `routes.reduce((a, b) => a.base_price < b.base_price ? a : b)`. -/
def reduceCheapest (r0 : ScoredRoute) (rs : List ScoredRoute) : ScoredRoute :=
  rs.foldl (fun a b => if a.base_price < b.base_price then a else b) r0

/-- `routes.reduce((a, b) => a.duration_minutes < b.duration_minutes ? a : b)`. -/
def reduceFastest (r0 : ScoredRoute) (rs : List ScoredRoute) : ScoredRoute :=
  rs.foldl (fun a b => if a.duration_minutes < b.duration_minutes then a else b) r0

/-- `RoutePlanner.generateRecommendations(routes, entities)`; `routes`
is already sorted by score, so the best-scored route is its head. -/
def generateRecommendations (routes : List ScoredRoute) (entities : Entities) :
    List Recommendation :=
  match routes with
  | [] => []
  | r0 :: rs =>
    let cheapest := reduceCheapest r0 rs
    let fastest := reduceFastest r0 rs
    let bestScored := r0
    let recs :=
      if cheapest.id ≠ fastest.id then
        [⟨"cheapest", some cheapest.id, none⟩, ⟨"fastest", some fastest.id, none⟩]
      else []
    let recs :=
      if bestScored.id ≠ cheapest.id && bestScored.id ≠ fastest.id then
        recs ++ [⟨"best_value", some bestScored.id, none⟩]
      else recs
    if entities.timePreference.isSome then
      let matching := routes.filter (fun r => !r.schedules.isEmpty)
      if !matching.isEmpty then recs ++ [⟨"time_match", none, some matching.length⟩] else recs
    else recs

/-- Options forwarded to the lookup collaborator. -/
structure LookupOpts where
  timePreference : Option TimeRange
  date : Option Int
  budgetPreference : Option String

/-- The external route lookup (`TransportService.searchRoutes`), which
the spec scopes out as a collaborator: origin, destination, mode and
options in, candidate routes out. -/
def LookupFn : Type := String → String → String → LookupOpts → List Route

/-- Result of `RoutePlanner.planRoutes`. -/
structure PlanResult where
  routes : List ScoredRoute
  recommendations : List Recommendation
  error : Option String
deriving DecidableEq, Repr

/-- `RoutePlanner.planRoutes(entities)`: guard the required slots, look
up candidates, score, sort by score descending, recommend. -/
def planRoutes (search : LookupFn) (entities : Entities) : PlanResult :=
  match entities.origin, entities.destination with
  | some origin, some destination =>
    let routes := search origin destination (entities.mode.getD "any")
      ⟨entities.timePreference, entities.date, entities.budgetPreference⟩
    let scored := sortByScoreDesc (scoreRoutes routes entities)
    ⟨scored, generateRecommendations scored entities, none⟩
  | _, _ => ⟨[], [], some "Origin and destination are required"⟩

/-! ## Conversation context (`ConversationContext`) and the chat service -/

/-- A structured response decision; the display strings produced by
`ResponseGenerator` (some chosen randomly among equivalent phrasings)
are external rendering of these branches. -/
inductive Response where
  | greeting
  | help
  | goodbye
  | thanks
  | missingInfo (missing : List String) (entities : Entities)
  | routeResults (routes : List ScoredRoute) (entities : Entities)
  | comparison (routes : List ScoredRoute)
  | onlyOneRouteToCompare
  | noRoutesToCompare
  | preferenceAck (mode budget seatClass : Option String)
  | selectionDetail (route : ScoredRoute)
  | selectionPrompt (n : Nat)
  | nothingToSelect
  | unknownFallback
deriving DecidableEq, Repr

/-- One history turn. -/
inductive Turn where
  | user (content : String)
  | assistant (content : Response)
deriving DecidableEq, Repr

/-- The per-session record created by `getContext`. -/
structure SessionCtx where
  entities : Entities
  lastIntent : Option String
  turnCount : Nat
  history : List Turn
  lastRoutes : Option (List ScoredRoute)
  state : String
deriving DecidableEq, Repr

/-- The fresh record `getContext` installs on first reference. -/
def freshCtx : SessionCtx :=
  { entities := {}, lastIntent := none, turnCount := 0, history := [],
    lastRoutes := none, state := "idle" }

/-- The session map (`this.sessions`). -/
def Sessions : Type := String → Option SessionCtx

def setSession (s : Sessions) (id : String) (c : SessionCtx) : Sessions :=
  fun k => if k = id then some c else s k

/-- `getContext(sessionId)`: get-or-create.  Returns the context and the
possibly-extended map. -/
def getContext (s : Sessions) (id : String) : SessionCtx × Sessions :=
  match s id with
  | some c => (c, s)
  | none => (freshCtx, setSession s id freshCtx)

/-- The optional fields of an `updateContext` call. -/
structure Updates where
  entities : Option Entities := none
  lastIntent : Option String := none
  state : Option String := none
  lastRoutes : Option (List ScoredRoute) := none
  message : Option Turn := none

/-- `{ ...ctx.entities, ...updates.entities }`: on these option records
the object spread coincides with overwriting each slot present in the
update. -/
def spreadEntities (base upd : Entities) : Entities := mergeWithContext upd base

/-- History push with the capacity-20 cap (`slice(-20)`). -/
def capHistory (h : List Turn) : List Turn :=
  if 20 < h.length then h.drop (h.length - 20) else h

/-- `updateContext(sessionId, updates)`: merge entities, overwrite
lastIntent/state/lastRoutes when supplied (the source guards each with
a truthiness test), increment `turnCount` unconditionally, and append
the message to the bounded history. -/
def updateContext (s : Sessions) (id : String) (u : Updates) : SessionCtx × Sessions :=
  let g := getContext s id
  let c0 := g.1
  let c1 : SessionCtx :=
    { entities := match u.entities with
        | some e => spreadEntities c0.entities e
        | none => c0.entities,
      lastIntent := match u.lastIntent with
        | some i => some i
        | none => c0.lastIntent,
      state := match u.state with
        | some st => st
        | none => c0.state,
      lastRoutes := match u.lastRoutes with
        | some lr => some lr
        | none => c0.lastRoutes,
      turnCount := c0.turnCount + 1,
      history := match u.message with
        | some m => capHistory (c0.history ++ [m])
        | none => c0.history }
  (c1, setSession g.2 id c1)

/-- `clearContext(sessionId)`: delete the session from the map. -/
def clearContext (s : Sessions) (id : String) : Sessions :=
  fun k => if k = id then none else s k

/-- `getMissingEntities(sessionId)`: origin then destination. -/
def getMissingEntities (s : Sessions) (id : String) : List String × Sessions :=
  let g := getContext s id
  ((if g.1.entities.origin = none then ["origin"] else []) ++
   (if g.1.entities.destination = none then ["destination"] else []), g.2)

/-- The durable append collaborator: `(sessionId, role) → ok or error`. -/
def SaveFn : Type := String → String → Except String Unit

/-- `ChatService.saveMessage`: the append is attempted and any failure
is caught and logged (the returned list is the console error log). -/
def saveMessage (saver : SaveFn) (sessionId role : String) : List String :=
  match saver sessionId role with
  | .ok _ => []
  | .error e => ["Failed to save message: " ++ e]

/-- `/(\d+)/` + `parseInt`: the first run of decimal digits. -/
def firstInt (s : String) : Option Nat :=
  let ds := (s.toList.dropWhile (fun c => !c.isDigit)).takeWhile Char.isDigit
  if ds.isEmpty then none
  else some (ds.foldl (fun n c => n * 10 + (c.toNat - 48)) 0)

/-- `ChatService.generateComparison(routes)`. -/
def generateComparison (routes : List ScoredRoute) : Response :=
  if routes.length < 2 then .onlyOneRouteToCompare else .comparison routes

/-- `ChatService.handleTravelQuery`: prompt for missing slots
(phase ← collecting_info) or plan routes (phase ← showing_results,
store `lastRoutes`). -/
def handleTravelQuery (search : LookupFn) (s : Sessions) (id : String) (entities : Entities) :
    Response × Sessions :=
  let g := getMissingEntities s id
  if g.1 ≠ [] then
    let u := updateContext g.2 id { state := some "collecting_info" }
    (.missingInfo g.1 entities, u.2)
  else
    let u := updateContext g.2 id { state := some "showing_results" }
    let result := planRoutes search entities
    let u2 := updateContext u.2 id { lastRoutes := some result.routes }
    (.routeResults result.routes entities, u2.2)

/-- `ChatService.handleCompareRoutes`. -/
def handleCompareRoutes (search : LookupFn) (s : Sessions) (id : String) (entities : Entities) :
    Response × Sessions :=
  let g := getContext s id
  let hasRoutes := match g.1.lastRoutes with
    | some rs => !rs.isEmpty
    | none => false
  if hasRoutes then (generateComparison (g.1.lastRoutes.getD []), g.2)
  else if entities.origin.isSome && entities.destination.isSome then
    handleTravelQuery search g.2 id entities
  else (.noRoutesToCompare, g.2)

/-- `ChatService.handlePreference`. -/
def handlePreference (search : LookupFn) (s : Sessions) (id : String) (entities : Entities) :
    Response × Sessions :=
  let g := getContext s id
  if entities.origin.isSome && entities.destination.isSome then
    handleTravelQuery search g.2 id entities
  else (.preferenceAck entities.mode entities.budgetPreference entities.seatClass, g.2)

/-- `ChatService.handleRouteSelection(sessionId, message)`: parse the
first integer literal of the raw text as a 1-based index into
`lastRoutes`. -/
def handleRouteSelection (s : Sessions) (id message : String) : Response × Sessions :=
  let g := getContext s id
  match g.1.lastRoutes with
  | none => (.nothingToSelect, g.2)
  | some rs =>
    if rs.isEmpty then (.nothingToSelect, g.2)
    else
      match firstInt message with
      | some n =>
        let idx : Int := (n : Int) - 1
        if h : 0 ≤ idx ∧ idx < (rs.length : Int) then
          (.selectionDetail (rs.get ⟨idx.toNat, by omega⟩), g.2)
        else (.selectionPrompt rs.length, g.2)
      | none => (.selectionPrompt rs.length, g.2)

/-- The response metadata returned alongside the text. -/
structure Metadata where
  intent : String
  confidence : ℚ
  entities : Entities
  routes : Option (List ScoredRoute) := none
deriving DecidableEq, Repr

/-- The intent `switch` of `processMessage`: returns the response, the
updated session map and the `metadata.routes` assignment. -/
def dispatchIntent (search : LookupFn) (s : Sessions) (id message : String)
    (entities : Entities) (intent : String) :
    Response × Sessions × Option (List ScoredRoute) :=
  if intent = "greeting" then
    let u := updateContext s id { state := some "idle" }
    (.greeting, u.2, none)
  else if intent = "help" then (.help, s, none)
  else if intent = "goodbye" then (.goodbye, clearContext s id, none)
  else if intent = "thanks" then (.thanks, s, none)
  else if intent = "travel_search" ∨ intent = "schedule_query" ∨ intent = "price_query" then
    let h := handleTravelQuery search s id entities
    (h.1, h.2, (getContext h.2 id).1.lastRoutes)
  else if intent = "compare_routes" then
    let h := handleCompareRoutes search s id entities
    (h.1, h.2, none)
  else if intent = "route_preference" then
    let h := handlePreference search s id entities
    (h.1, h.2, none)
  else if intent = "select_route" then
    let h := handleRouteSelection s id message
    (h.1, h.2, none)
  else
    if entities.origin.isSome && entities.destination.isSome then
      let h := handleTravelQuery search s id entities
      (h.1, h.2, (getContext h.2 id).1.lastRoutes)
    else (.unknownFallback, s, none)

/-- The value returned by `processMessage` together with the final
session map and the console error log of the best-effort appends. -/
structure ProcessResult where
  text : Response
  metadata : Metadata
  sessionId : String
  sessions : Sessions
  log : List String

/-- `ChatService.processMessage(sessionId, message)`. -/
def processMessage (search : LookupFn) (saver : SaveFn) (now : CivilNow)
    (s : Sessions) (sessionId message : String) : ProcessResult :=
  let g := getContext s sessionId
  let entities := extractEntities now message g.1.entities
  let det := detectIntent message entities
  let intent := det.intent
  let u1 := updateContext g.2 sessionId
    { entities := some entities, lastIntent := some intent, message := some (.user message) }
  let br := dispatchIntent search u1.2 sessionId message entities intent
  let response := br.1
  let u2 := updateContext br.2.1 sessionId { message := some (.assistant response) }
  let log := saveMessage saver sessionId "user" ++ saveMessage saver sessionId "assistant"
  ⟨response, ⟨intent, det.confidence, entities, br.2.2⟩, sessionId, u2.2, log⟩

/-! ## Helper lemmas -/

lemma lookup_mem {l : List (String × String)} {k v : String}
    (h : l.lookup k = some v) : (k, v) ∈ l := by
  induction l with
  | nil => simp [List.lookup] at h
  | cons p t ih =>
    rw [List.lookup] at h
    by_cases hk : k == p.1
    · simp only [hk, if_pos] at h
      have h2 : p.2 = v := by simpa using h
      have h1 : k = p.1 := by simpa using hk
      have hp : p = (k, v) := by cases p; simp_all
      rw [hp]
      exact List.mem_cons_self _ _
    · simp only [hk] at h
      exact List.mem_cons_of_mem _ (ih (by simpa [hk] using h))

/-- Any non-`none` result of `resolveCity` is a canonical value of the
alias table. -/
lemma resolveCity_mem {s c : String} (h : resolveCity s = some c) :
    c ∈ CITY_ALIASES.map Prod.snd := by
  unfold resolveCity at h
  split at h
  · simp at h
  · rcases hl : CITY_ALIASES.lookup (cleanCity s) with _ | city
    · rw [hl] at h
      simp only at h
      rcases hf : CITY_ALIASES.find? (fun p =>
          strIncludes (cleanCity s) p.1 || strIncludes p.1 (cleanCity s)) with _ | p
      · rw [hf] at h; simp at h
      · rw [hf] at h
        have hc : c = p.2 := by simpa using h.symm
        subst hc
        exact List.mem_map_of_mem Prod.snd (List.mem_of_find?_eq_some hf)
    · rw [hl] at h
      simp only [Option.some.injEq] at h
      cases h
      exact List.mem_map_of_mem Prod.snd (lookup_mem hl)

/-! ## C8: alias resolution is idempotent on successful outputs -/

/-- C8: for every input string `s` on which `resolveCity` succeeds with
a canonical city name `c`, `resolveCity c = c` — canonical names are
fixed points of `resolveCity`. -/
theorem c8_resolveCity_idempotent (s c : String) (h : resolveCity s = some c) :
    resolveCity c = some c := by
  have hmem := resolveCity_mem h
  fin_cases hmem <;> decide

/-- C8 witness: `resolveCity "bombay"` succeeds with `"Mumbai"`, and the
theorem yields the fixed point `resolveCity "Mumbai" = "Mumbai"`. -/
theorem c8_resolveCity_idempotent_witness : resolveCity "Mumbai" = some "Mumbai" :=
  c8_resolveCity_idempotent "bombay" "Mumbai" (by decide)

/-! ## C1: scoring bounds and tags -/

lemma foldl_min_le_init (l : List ℚ) (a : ℚ) : l.foldl min a ≤ a := by
  induction l generalizing a with
  | nil => simp
  | cons x xs ih =>
    calc (x :: xs).foldl min a = xs.foldl min (min a x) := rfl
    _ ≤ min a x := ih _
    _ ≤ a := min_le_left _ _

lemma foldl_min_le_mem {l : List ℚ} {x : ℚ} (hx : x ∈ l) (a : ℚ) : l.foldl min a ≤ x := by
  induction l generalizing a with
  | nil => simp at hx
  | cons y ys ih =>
    rcases List.mem_cons.mp hx with h | h
    · rw [h]
      calc (y :: ys).foldl min a = ys.foldl min (min a y) := rfl
      _ ≤ min a y := foldl_min_le_init ys _
      _ ≤ y := min_le_right _ _
    · exact ih h _

lemma le_foldl_max_init (l : List ℚ) (a : ℚ) : a ≤ l.foldl max a := by
  induction l generalizing a with
  | nil => simp
  | cons x xs ih =>
    calc a ≤ max a x := le_max_left _ _
    _ ≤ xs.foldl max (max a x) := ih _
    _ = (x :: xs).foldl max a := rfl

lemma le_foldl_max_mem {l : List ℚ} {x : ℚ} (hx : x ∈ l) (a : ℚ) : x ≤ l.foldl max a := by
  induction l generalizing a with
  | nil => simp at hx
  | cons y ys ih =>
    rcases List.mem_cons.mp hx with h | h
    · rw [h]
      calc y ≤ max a y := le_max_right _ _
      _ ≤ ys.foldl max (max a y) := le_foldl_max_init ys _
      _ = (y :: ys).foldl max a := rfl
    · exact ih h _

/-- `listMin` bounds every member from below. -/
lemma listMin_le {l : List ℚ} {x : ℚ} (hx : x ∈ l) : listMin l ≤ x := by
  cases l with
  | nil => simp at hx
  | cons y ys =>
    rcases List.mem_cons.mp hx with h | h
    · rw [h]; exact foldl_min_le_init ys y
    · exact foldl_min_le_mem h y

/-- `listMax` bounds every member from above. -/
lemma le_listMax {l : List ℚ} {x : ℚ} (hx : x ∈ l) : x ≤ listMax l := by
  cases l with
  | nil => simp at hx
  | cons y ys =>
    rcases List.mem_cons.mp hx with h | h
    · rw [h]; exact le_foldl_max_init ys y
    · exact le_foldl_max_mem h y

/-- The inverted-normalized price factor lies in `[0,1]` whenever the
price lies between the set minimum and maximum. -/
lemma priceScore_bounds {minP maxP p : ℚ} (h1 : minP ≤ p) (h2 : p ≤ maxP) :
    0 ≤ priceScore minP maxP p ∧ priceScore minP maxP p ≤ 1 := by
  unfold priceScore
  split
  · norm_num
  · rename_i hne
    have hlt : minP < maxP := lt_of_le_of_ne (le_trans h1 h2) (fun heq => hne heq.symm)
    have hd : 0 < maxP - minP := by linarith
    constructor
    · have hle : (p - minP) / (maxP - minP) ≤ 1 := by
        rw [div_le_one hd]; linarith
      linarith
    · have hge : 0 ≤ (p - minP) / (maxP - minP) := div_nonneg (by linarith) (le_of_lt hd)
      linarith

/-- The inverted-normalized duration factor lies in `[0,1]` whenever the
duration lies between the set minimum and maximum. -/
lemma durationScore_bounds {minD maxD d : ℚ} (h1 : minD ≤ d) (h2 : d ≤ maxD) :
    0 ≤ durationScore minD maxD d ∧ durationScore minD maxD d ≤ 1 := by
  unfold durationScore
  split
  · norm_num
  · rename_i hne
    have hlt : minD < maxD := lt_of_le_of_ne (le_trans h1 h2) (fun heq => hne heq.symm)
    have hd : 0 < maxD - minD := by linarith
    constructor
    · have hle : (d - minD) / (maxD - minD) ≤ 1 := by
        rw [div_le_one hd]; linarith
      linarith
    · have hge : 0 ≤ (d - minD) / (maxD - minD) := div_nonneg (by linarith) (le_of_lt hd)
      linarith

/-- The schedule-convenience factor lies in `[0,1]`. -/
lemma scheduleScore_bounds (n : Nat) : 0 ≤ scheduleScore n ∧ scheduleScore n ≤ 1 := by
  unfold scheduleScore
  exact ⟨le_min (by positivity) zero_le_one, min_le_right _ _⟩

set_option maxHeartbeats 2000000 in
/-- Every reputation-table value (and the 0.5 default) lies in `[0,1]`. -/
lemma getOperatorScore_bounds (op : String) :
    0 ≤ getOperatorScore op ∧ getOperatorScore op ≤ 1 := by
  unfold getOperatorScore
  split_ifs <;> norm_num

/-- Each of the three fixed weight profiles has four non-negative
weights summing to 1. -/
lemma weightsFor_nonneg_sum (b : Option String) :
    0 ≤ (weightsFor b).price ∧ 0 ≤ (weightsFor b).duration ∧
    0 ≤ (weightsFor b).schedule ∧ 0 ≤ (weightsFor b).operator ∧
    (weightsFor b).price + (weightsFor b).duration + (weightsFor b).schedule +
      (weightsFor b).operator = 1 := by
  unfold weightsFor
  split_ifs <;> norm_num

/-- A convex combination of `[0,1]` factors with non-negative weights
summing to 1 lies in `[0,1]`. -/
lemma weighted_sum_bounds {w1 w2 w3 w4 f1 f2 f3 f4 : ℚ}
    (hw1 : 0 ≤ w1) (hw2 : 0 ≤ w2) (hw3 : 0 ≤ w3) (hw4 : 0 ≤ w4)
    (hsum : w1 + w2 + w3 + w4 = 1)
    (h1a : 0 ≤ f1) (h1b : f1 ≤ 1) (h2a : 0 ≤ f2) (h2b : f2 ≤ 1)
    (h3a : 0 ≤ f3) (h3b : f3 ≤ 1) (h4a : 0 ≤ f4) (h4b : f4 ≤ 1) :
    0 ≤ w1 * f1 + w2 * f2 + w3 * f3 + w4 * f4 ∧
    w1 * f1 + w2 * f2 + w3 * f3 + w4 * f4 ≤ 1 := by
  have e1 : w1 * f1 ≤ w1 := mul_le_of_le_one_right hw1 h1b
  have e2 : w2 * f2 ≤ w2 := mul_le_of_le_one_right hw2 h2b
  have e3 : w3 * f3 ≤ w3 := mul_le_of_le_one_right hw3 h3b
  have e4 : w4 * f4 ≤ w4 := mul_le_of_le_one_right hw4 h4b
  have n1 : 0 ≤ w1 * f1 := mul_nonneg hw1 h1a
  have n2 : 0 ≤ w2 * f2 := mul_nonneg hw2 h2a
  have n3 : 0 ≤ w3 * f3 := mul_nonneg hw3 h3a
  have n4 : 0 ≤ w4 * f4 := mul_nonneg hw4 h4a
  constructor <;> linarith

/-- C1: for every candidate route list and entity record, the selected
weight profile has four non-negative weights summing to 1.0; every route
returned by `scoreRoutes` has its four factors in `[0,1]` and therefore
a `score` in `[0,1]`; a route whose base price equals the set minimum
carries the tag `cheapest` and a route whose duration equals the set
minimum carries the tag `fastest`. -/
theorem c1_scoreRoutes_bounds_and_tags (routes : List Route) (entities : Entities)
    (sr : ScoredRoute) (hmem : sr ∈ scoreRoutes routes entities) :
    (0 ≤ (weightsFor entities.budgetPreference).price ∧
     0 ≤ (weightsFor entities.budgetPreference).duration ∧
     0 ≤ (weightsFor entities.budgetPreference).schedule ∧
     0 ≤ (weightsFor entities.budgetPreference).operator ∧
     (weightsFor entities.budgetPreference).price +
       (weightsFor entities.budgetPreference).duration +
       (weightsFor entities.budgetPreference).schedule +
       (weightsFor entities.budgetPreference).operator = 1) ∧
    (0 ≤ priceScore (listMin (routes.map (·.base_price))) (listMax (routes.map (·.base_price)))
        sr.base_price ∧
     priceScore (listMin (routes.map (·.base_price))) (listMax (routes.map (·.base_price)))
        sr.base_price ≤ 1) ∧
    (0 ≤ durationScore (listMin (routes.map (·.duration_minutes)))
        (listMax (routes.map (·.duration_minutes))) sr.duration_minutes ∧
     durationScore (listMin (routes.map (·.duration_minutes)))
        (listMax (routes.map (·.duration_minutes))) sr.duration_minutes ≤ 1) ∧
    (0 ≤ scheduleScore sr.schedules.length ∧ scheduleScore sr.schedules.length ≤ 1) ∧
    (0 ≤ getOperatorScore sr.operator ∧ getOperatorScore sr.operator ≤ 1) ∧
    0 ≤ sr.score ∧ sr.score ≤ 1 ∧
    (sr.base_price = listMin (routes.map (·.base_price)) → "cheapest" ∈ sr.tags) ∧
    (sr.duration_minutes = listMin (routes.map (·.duration_minutes)) → "fastest" ∈ sr.tags) := by
  cases routes with
  | nil => simp [scoreRoutes] at hmem
  | cons r0 rs =>
    simp only [scoreRoutes] at hmem
    rcases List.mem_map.mp hmem with ⟨r, hr, rfl⟩
    set l := r0 :: rs with hl
    set minP := listMin (l.map (·.base_price)) with hminP
    set maxP := listMax (l.map (·.base_price)) with hmaxP
    set minD := listMin (l.map (·.duration_minutes)) with hminD
    set maxD := listMax (l.map (·.duration_minutes)) with hmaxD
    set w := weightsFor entities.budgetPreference with hw
    have hpmem : r.base_price ∈ l.map (·.base_price) := List.mem_map_of_mem _ hr
    have hdmem : r.duration_minutes ∈ l.map (·.duration_minutes) := List.mem_map_of_mem _ hr
    have hp1 : minP ≤ r.base_price := listMin_le hpmem
    have hp2 : r.base_price ≤ maxP := le_listMax hpmem
    have hd1 : minD ≤ r.duration_minutes := listMin_le hdmem
    have hd2 : r.duration_minutes ≤ maxD := le_listMax hdmem
    have hwf := weightsFor_nonneg_sum entities.budgetPreference
    have hps := priceScore_bounds hp1 hp2
    have hds := durationScore_bounds hd1 hd2
    have hss := scheduleScore_bounds r.schedules.length
    have hos := getOperatorScore_bounds r.operator
    have hproj1 : (scoreOne w minP maxP minD maxD r).base_price = r.base_price := rfl
    have hproj2 : (scoreOne w minP maxP minD maxD r).duration_minutes = r.duration_minutes := rfl
    have hproj3 : (scoreOne w minP maxP minD maxD r).schedules = r.schedules := rfl
    have hproj4 : (scoreOne w minP maxP minD maxD r).operator = r.operator := rfl
    have hscore : (scoreOne w minP maxP minD maxD r).score =
        w.price * priceScore minP maxP r.base_price +
        w.duration * durationScore minD maxD r.duration_minutes +
        w.schedule * scheduleScore r.schedules.length +
        w.operator * getOperatorScore r.operator := rfl
    have htags : (scoreOne w minP maxP minD maxD r).tags =
        (if r.base_price = minP then ["cheapest"] else []) ++
        (if r.duration_minutes = minD then ["fastest"] else []) ++
        (if 4 ≤ r.schedules.length then ["frequent"] else []) := rfl
    refine ⟨hwf, ?_, ?_, ?_, ?_, ?_, ?_, ?_, ?_⟩
    · rw [hproj1]; exact hps
    · rw [hproj2]; exact hds
    · rw [hproj3]; exact hss
    · rw [hproj4]; exact hos
    · rw [hscore]
      exact (weighted_sum_bounds hwf.1 hwf.2.1 hwf.2.2.1 hwf.2.2.2.1 hwf.2.2.2.2
        hps.1 hps.2 hds.1 hds.2 hss.1 hss.2 hos.1 hos.2).1
    · rw [hscore]
      exact (weighted_sum_bounds hwf.1 hwf.2.1 hwf.2.2.1 hwf.2.2.2.1 hwf.2.2.2.2
        hps.1 hps.2 hds.1 hds.2 hss.1 hss.2 hos.1 hos.2).2
    · intro hcheap
      rw [hproj1] at hcheap
      rw [htags]
      simp [hcheap]
    · intro hfast
      rw [hproj2] at hfast
      rw [htags]
      simp [hfast]

/-- Concrete candidate routes for the C1 witness (the spec's worked
example: ₹350/195min Indian Railways train vs ₹450/210min MSRTC bus). -/
def c1RouteA : Route :=
  { id := "1", mode := "train", operator := "Indian Railways", route_name := "Deccan Express",
    base_price := 350, duration_minutes := 195,
    schedules := [⟨"07:00", "10:15", none⟩] }

def c1RouteB : Route :=
  { id := "2", mode := "bus", operator := "MSRTC", route_name := "Shivneri",
    base_price := 450, duration_minutes := 210,
    schedules := [⟨"08:00", "11:30", none⟩] }

def c1Routes : List Route := [c1RouteA, c1RouteB]

/-- The scored route produced for `c1RouteA` by `scoreRoutes`. -/
def c1SR : ScoredRoute :=
  scoreOne (weightsFor (({} : Entities)).budgetPreference)
    (listMin (c1Routes.map (·.base_price))) (listMax (c1Routes.map (·.base_price)))
    (listMin (c1Routes.map (·.duration_minutes))) (listMax (c1Routes.map (·.duration_minutes)))
    c1RouteA

/-- C1 witness: on the concrete two-route candidate set the scored
first route has its score in `[0,1]` and carries both `cheapest` and
`fastest`. -/
theorem c1_scoreRoutes_bounds_and_tags_witness :
    0 ≤ c1SR.score ∧ c1SR.score ≤ 1 ∧ "cheapest" ∈ c1SR.tags ∧ "fastest" ∈ c1SR.tags := by
  have h := c1_scoreRoutes_bounds_and_tags c1Routes {} c1SR
    (by simp [scoreRoutes, c1SR, c1Routes])
  obtain ⟨_, _, _, _, _, h0, h1, hch, hfa⟩ := h
  refine ⟨h0, h1, hch ?_, hfa ?_⟩
  · show (350 : ℚ) = listMin (c1Routes.map (·.base_price))
    simp [c1Routes, listMin, c1RouteA, c1RouteB, min_def]
    norm_num
  · show (195 : ℚ) = listMin (c1Routes.map (·.duration_minutes))
    simp [c1Routes, listMin, c1RouteA, c1RouteB, min_def]
    norm_num

/-! ## C2: entity merging is monotone -/

lemma keepOr_none_left {α : Type} (o : Option α) : keepOr none o = o := rfl

lemma keepOr_isSome {α : Type} (n o : Option α) (h : o.isSome) : (keepOr n o).isSome := by
  cases n with
  | none => simpa [keepOr] using h
  | some v => simp [keepOr]

/-- C2: `extractEntities(message, context)` never loses a slot of the
prior context: for each slot, if the extraction pass found nothing for
it the merged value is exactly the context value, and a slot present in
the context is present in the result (it is only ever replaced by a
newly extracted non-empty value). -/
theorem c2_extractEntities_merge_monotone (now : CivilNow) (msg : String) (ctx : Entities) :
    (((rawEntities now msg).origin = none →
        (extractEntities now msg ctx).origin = ctx.origin) ∧
      (ctx.origin.isSome → (extractEntities now msg ctx).origin.isSome)) ∧
    (((rawEntities now msg).destination = none →
        (extractEntities now msg ctx).destination = ctx.destination) ∧
      (ctx.destination.isSome → (extractEntities now msg ctx).destination.isSome)) ∧
    (((rawEntities now msg).mode = none →
        (extractEntities now msg ctx).mode = ctx.mode) ∧
      (ctx.mode.isSome → (extractEntities now msg ctx).mode.isSome)) ∧
    (((rawEntities now msg).date = none →
        (extractEntities now msg ctx).date = ctx.date) ∧
      (ctx.date.isSome → (extractEntities now msg ctx).date.isSome)) ∧
    (((rawEntities now msg).timePreference = none →
        (extractEntities now msg ctx).timePreference = ctx.timePreference) ∧
      (ctx.timePreference.isSome → (extractEntities now msg ctx).timePreference.isSome)) ∧
    (((rawEntities now msg).seatClass = none →
        (extractEntities now msg ctx).seatClass = ctx.seatClass) ∧
      (ctx.seatClass.isSome → (extractEntities now msg ctx).seatClass.isSome)) ∧
    (((rawEntities now msg).budgetPreference = none →
        (extractEntities now msg ctx).budgetPreference = ctx.budgetPreference) ∧
      (ctx.budgetPreference.isSome → (extractEntities now msg ctx).budgetPreference.isSome)) := by
  refine ⟨⟨?_, ?_⟩, ⟨?_, ?_⟩, ⟨?_, ?_⟩, ⟨?_, ?_⟩, ⟨?_, ?_⟩, ⟨?_, ?_⟩, ⟨?_, ?_⟩⟩ <;>
    intro h <;>
    first
      | exact keepOr_isSome _ _ h
      | (simp only [extractEntities, mergeWithContext]; rw [h, keepOr_none_left])

/-- A fully-populated prior context for the C2 witness. -/
def c2Ctx : Entities :=
  { origin := some "Mumbai", destination := some "Delhi", mode := some "train",
    date := some 20370, timePreference := some ⟨"06:00", some "12:00", "morning"⟩,
    seatClass := some "ac", budgetPreference := some "budget" }

def c2Now : CivilNow := ⟨2025, 10, 11, true⟩

/-- C2 witness: on the message `"zzz"`, for which every extractor comes
back empty, every slot of the prior context survives unchanged. -/
theorem c2_extractEntities_merge_monotone_witness :
    (extractEntities c2Now "zzz" c2Ctx).origin = c2Ctx.origin ∧
    (extractEntities c2Now "zzz" c2Ctx).destination = c2Ctx.destination ∧
    (extractEntities c2Now "zzz" c2Ctx).mode = c2Ctx.mode ∧
    (extractEntities c2Now "zzz" c2Ctx).date = c2Ctx.date ∧
    (extractEntities c2Now "zzz" c2Ctx).timePreference = c2Ctx.timePreference ∧
    (extractEntities c2Now "zzz" c2Ctx).seatClass = c2Ctx.seatClass ∧
    (extractEntities c2Now "zzz" c2Ctx).budgetPreference = c2Ctx.budgetPreference := by
  have h := c2_extractEntities_merge_monotone c2Now "zzz" c2Ctx
  exact ⟨h.1.1 (by decide), h.2.1.1 (by decide), h.2.2.1.1 (by decide),
    h.2.2.2.1.1 (by decide), h.2.2.2.2.1.1 (by decide), h.2.2.2.2.2.1.1 (by decide),
    h.2.2.2.2.2.2.1 (by decide)⟩

/-! ## C3 and C9: the entity boost in `detectIntent` -/

lemma pickStep_fst_le (acc : Nat × String) (l : List (String × Nat)) :
    acc.1 ≤ (l.foldl pickStep acc).1 := by
  induction l generalizing acc with
  | nil => simp
  | cons p t ih =>
    refine le_trans ?_ (ih (pickStep acc p))
    unfold pickStep
    split
    · rename_i hs; simp; omega
    · simp

lemma foldl_pick_ge_mem {l : List (String × Nat)} {q : String × Nat} (hq : q ∈ l)
    (acc : Nat × String) : q.2 ≤ (l.foldl pickStep acc).1 := by
  induction l generalizing acc with
  | nil => simp at hq
  | cons p t ih =>
    rcases List.mem_cons.mp hq with h | h
    · have hstep : p.2 ≤ (pickStep acc p).1 := by
        unfold pickStep
        split
        · simp
        · rename_i hs; omega
      rw [h]
      exact le_trans hstep (pickStep_fst_le _ t)
    · exact ih h _

lemma foldl_pick_snd_cases (l : List (String × Nat)) (acc : Nat × String) :
    (l.foldl pickStep acc).2 = acc.2 ∨ (l.foldl pickStep acc).2 ∈ l.map Prod.fst := by
  induction l generalizing acc with
  | nil => left; rfl
  | cons p t ih =>
    rcases ih (pickStep acc p) with h | h
    · rw [List.foldl_cons]
      rw [h]
      unfold pickStep
      split
      · right; simp
      · left; rfl
    · right
      rw [List.foldl_cons]
      exact List.mem_cons_of_mem _ h

lemma foldl_pick_snd_mem {l : List (String × Nat)} {acc : Nat × String}
    (h : acc.1 < (l.foldl pickStep acc).1) :
    (l.foldl pickStep acc).2 ∈ l.map Prod.fst := by
  induction l generalizing acc with
  | nil => simp at h
  | cons p t ih =>
    rw [List.foldl_cons] at h ⊢
    by_cases hs : acc.1 < p.2
    · have hps : pickStep acc p = (p.2, p.1) := by unfold pickStep; rw [if_pos hs]
      rw [hps] at h ⊢
      rcases foldl_pick_snd_cases t (p.2, p.1) with hc | hc
      · rw [hc]; simp
      · exact List.mem_cons_of_mem _ hc
    · have hps : pickStep acc p = acc := by unfold pickStep; rw [if_neg hs]
      rw [hps] at h ⊢
      exact List.mem_cons_of_mem _ (ih h)

/-- The boost rewrites exactly the `travel_search` entry. -/
lemma boost_lookup (l : List (String × Nat)) (e : Entities)
    (he : e.origin.isSome ∨ e.destination.isSome) :
    (applyEntityBoost l e).lookup "travel_search" =
      (l.lookup "travel_search").map (· + 2) := by
  have hcond : (e.origin.isSome || e.destination.isSome) = true := by
    rcases he with h | h <;> simp [h]
  unfold applyEntityBoost
  rw [if_pos hcond]
  induction l with
  | nil => simp [List.lookup]
  | cons p t ih =>
    cases p with
    | mk k v =>
      by_cases hk : k = "travel_search"
      · subst hk
        simp [List.lookup]
      · simp only [List.map_cons, if_neg hk]
        rw [List.lookup, List.lookup]
        have hbk : ("travel_search" == k) = false := by
          simp [BEq.beq]
          exact fun heq => hk heq.symm
        rw [hbk]
        simpa using ih

/-- The boost does not change which intents are listed. -/
lemma boost_map_fst (l : List (String × Nat)) (e : Entities) :
    (applyEntityBoost l e).map Prod.fst = l.map Prod.fst := by
  unfold applyEntityBoost
  split
  · rw [List.map_map]
    apply List.map_congr_left
    intro p _
    by_cases hp : p.1 = "travel_search" <;> simp [hp]
  · rfl

lemma intentRawScores_map_fst (n : String) :
    (intentRawScores n).map Prod.fst = INTENT_PATTERNS.map Prod.fst := by
  unfold intentRawScores
  rw [List.map_map]
  apply List.map_congr_left
  intro p _
  rfl

lemma pickBest_ge_mem {l : List (String × Nat)} {q : String × Nat} (hq : q ∈ l) :
    q.2 ≤ (pickBest l).1 := foldl_pick_ge_mem hq _

lemma pickBest_snd_mem {l : List (String × Nat)} (h : 0 < (pickBest l).1) :
    (pickBest l).2 ∈ l.map Prod.fst := foldl_pick_snd_mem h

lemma detectIntent_confidence_eq (msg : String) (e : Entities) :
    (detectIntent msg e).confidence =
      min (((pickBest (applyEntityBoost (intentRawScores (trimStr (lowerStr msg))) e)).1 : ℚ) / 3)
        1 := rfl

lemma detectIntent_intent_of_ne (msg : String) (e : Entities)
    (hpos : (pickBest (applyEntityBoost (intentRawScores (trimStr (lowerStr msg))) e)).1 ≠ 0) :
    (detectIntent msg e).intent =
      (pickBest (applyEntityBoost (intentRawScores (trimStr (lowerStr msg))) e)).2 := by
  have heq : (detectIntent msg e).intent =
      if (pickBest (applyEntityBoost (intentRawScores (trimStr (lowerStr msg))) e)).1 = 0 &&
          (e.origin.isSome || e.destination.isSome) then "travel_search"
      else (pickBest (applyEntityBoost (intentRawScores (trimStr (lowerStr msg))) e)).2 := rfl
  rw [heq, if_neg]
  simp only [Bool.and_eq_true, decide_eq_true_eq]
  rintro ⟨h0, _⟩
  exact hpos h0

/-- C3: when a location entity is present the `travel_search` raw score
receives a +2 boost before the maximum is taken; consequently on the
low-signal text "Find trains" with origin Mumbai and destination Pune
the detected intent is `travel_search`. -/
theorem c3_entity_boost_find_trains (msg : String) (e : Entities)
    (h : e.origin.isSome ∨ e.destination.isSome) :
    (applyEntityBoost (intentRawScores (trimStr (lowerStr msg))) e).lookup "travel_search" =
      ((intentRawScores (trimStr (lowerStr msg))).lookup "travel_search").map (· + 2) ∧
    (detectIntent "Find trains"
      { origin := some "Mumbai", destination := some "Pune" }).intent = "travel_search" :=
  ⟨boost_lookup _ e h, by decide⟩

/-- C3 witness: the boost equation instantiated at the text
"Find trains" with both location entities present. -/
theorem c3_entity_boost_find_trains_witness :
    (applyEntityBoost (intentRawScores (trimStr (lowerStr "Find trains")))
        { origin := some "Mumbai", destination := some "Pune" }).lookup "travel_search" =
      ((intentRawScores (trimStr (lowerStr "Find trains"))).lookup "travel_search").map (· + 2) ∧
    (detectIntent "Find trains"
      { origin := some "Mumbai", destination := some "Pune" }).intent = "travel_search" :=
  c3_entity_boost_find_trains "Find trains"
    { origin := some "Mumbai", destination := some "Pune" } (Or.inl (by decide))

/-- C9: with a location entity present, the boosted `travel_search`
score is at least 2, hence the winning score is strictly positive, the
`maxScore ≤ 0` fallback is unreachable, the returned intent is never
`unknown`, and the confidence is at least 2/3. -/
theorem c9_boost_floor_no_unknown (msg : String) (e : Entities)
    (h : e.origin.isSome ∨ e.destination.isSome) :
    (∃ s, ("travel_search", s) ∈ applyEntityBoost (intentRawScores (trimStr (lowerStr msg))) e ∧
      2 ≤ s) ∧
    0 < (pickBest (applyEntityBoost (intentRawScores (trimStr (lowerStr msg))) e)).1 ∧
    (detectIntent msg e).intent ≠ "unknown" ∧
    (2 : ℚ) / 3 ≤ (detectIntent msg e).confidence := by
  have hcond : (e.origin.isSome || e.destination.isSome) = true := by
    rcases h with h1 | h1 <;> simp [h1]
  have hraw : ("travel_search",
      [travelPat1, travelPat2, travelPat3, travelPat4, travelPat5].countP
        (testPat (trimStr (lowerStr msg)).toList)) ∈
      intentRawScores (trimStr (lowerStr msg)) := by
    simp [intentRawScores, INTENT_PATTERNS]
  have hbmem : ("travel_search",
      [travelPat1, travelPat2, travelPat3, travelPat4, travelPat5].countP
        (testPat (trimStr (lowerStr msg)).toList) + 2) ∈
      applyEntityBoost (intentRawScores (trimStr (lowerStr msg))) e := by
    unfold applyEntityBoost
    rw [if_pos hcond]
    have hmm := List.mem_map_of_mem
      (fun p => if p.1 = "travel_search" then (p.1, p.2 + 2) else p) hraw
    simpa using hmm
  have hge := pickBest_ge_mem hbmem
  have hpos : 0 < (pickBest (applyEntityBoost (intentRawScores (trimStr (lowerStr msg))) e)).1 := by
    simp only at hge
    omega
  refine ⟨⟨_, hbmem, by omega⟩, hpos, ?_, ?_⟩
  · rw [detectIntent_intent_of_ne msg e (by omega)]
    have hmem2 := pickBest_snd_mem hpos
    rw [boost_map_fst, intentRawScores_map_fst] at hmem2
    intro heq
    rw [heq] at hmem2
    revert hmem2
    decide
  · rw [detectIntent_confidence_eq]
    have h2 : (2 : ℚ) ≤
        (((pickBest (applyEntityBoost (intentRawScores (trimStr (lowerStr msg))) e)).1 : ℚ)) := by
      have : 2 ≤ (pickBest (applyEntityBoost (intentRawScores (trimStr (lowerStr msg))) e)).1 := by
        simp only at hge
        omega
      exact_mod_cast this
    refine le_min ?_ (by norm_num)
    exact (div_le_div_iff_of_pos_right (by norm_num : (0:ℚ) < 3)).mpr h2

/-- C9 witness: instantiated at "Find trains" with origin and
destination present. -/
theorem c9_boost_floor_no_unknown_witness :
    (detectIntent "Find trains"
        { origin := some "Mumbai", destination := some "Pune" }).intent ≠ "unknown" ∧
    (2 : ℚ) / 3 ≤ (detectIntent "Find trains"
        { origin := some "Mumbai", destination := some "Pune" }).confidence := by
  have h := c9_boost_floor_no_unknown "Find trains"
    { origin := some "Mumbai", destination := some "Pune" } (Or.inl (by decide))
  exact ⟨h.2.2.1, h.2.2.2⟩

/-! ## Session-state observers and update lemmas -/

/-- The turn counter of a session (0 when the session does not exist). -/
def tcAt (s : Sessions) (id : String) : Nat :=
  match s id with
  | some c => c.turnCount
  | none => 0

lemma setSession_self (s : Sessions) (id : String) (c : SessionCtx) :
    setSession s id c id = some c := by
  simp [setSession]

lemma getContext_snd_at (s : Sessions) (id : String) :
    (getContext s id).2 id = some (getContext s id).1 := by
  rcases h : s id with _ | c <;> simp [getContext, h, setSession]

lemma getContext_fst_tc (s : Sessions) (id : String) :
    (getContext s id).1.turnCount = tcAt s id := by
  rcases h : s id with _ | c <;> simp [getContext, tcAt, h, freshCtx]

lemma tcAt_getContext_snd (s : Sessions) (id : String) :
    tcAt (getContext s id).2 id = tcAt s id := by
  rcases h : s id with _ | c <;> simp [getContext, tcAt, h, setSession, freshCtx]

lemma updateContext_snd_at (s : Sessions) (id : String) (u : Updates) :
    (updateContext s id u).2 id = some (updateContext s id u).1 := by
  simp [updateContext, setSession]

lemma updateContext_fst_tc (s : Sessions) (id : String) (u : Updates) :
    (updateContext s id u).1.turnCount = tcAt s id + 1 := by
  have h : (updateContext s id u).1.turnCount = (getContext s id).1.turnCount + 1 := rfl
  rw [h, getContext_fst_tc]

lemma tcAt_updateContext (s : Sessions) (id : String) (u : Updates) :
    tcAt (updateContext s id u).2 id = tcAt s id + 1 := by
  have h1 : tcAt (updateContext s id u).2 id = (updateContext s id u).1.turnCount := by
    unfold tcAt
    rw [updateContext_snd_at]
  rw [h1, updateContext_fst_tc]

lemma clearContext_at (s : Sessions) (id : String) : clearContext s id id = none := by
  simp [clearContext]

lemma tcAt_clearContext (s : Sessions) (id : String) : tcAt (clearContext s id) id = 0 := by
  unfold tcAt
  rw [clearContext_at]

lemma getMissingEntities_snd (s : Sessions) (id : String) :
    (getMissingEntities s id).2 = (getContext s id).2 := rfl

/-- `handleRouteSelection` never modifies the session map beyond the
get-or-create of `getContext`. -/
lemma handleRouteSelection_snd (s : Sessions) (id m : String) :
    (handleRouteSelection s id m).2 = (getContext s id).2 := by
  unfold handleRouteSelection
  rcases h : (getContext s id).1.lastRoutes with _ | rs
  · simp only [h]
  · simp only [h]
    split
    · rfl
    · rcases hf : firstInt m with _ | n
      · simp only [hf]
      · simp only [hf]
        split <;> rfl

/-! ## C6: route selection parses a 1-based index into `lastRoutes` -/

/-- A one-route stored result for the C6 concrete case. -/
def c6Route : ScoredRoute :=
  { id := "7", mode := "train", operator := "Indian Railways", route_name := "Deccan Queen",
    base_price := 120, duration_minutes := 180, schedules := [], score := 1, tags := [] }

/-- A session whose `lastRoutes` holds exactly one route. -/
def c6Sessions : Sessions :=
  setSession (fun _ => none) "s1" { freshCtx with lastRoutes := some [c6Route] }

/-- A session with no stored routes. -/
def c6Empty : Sessions := setSession (fun _ => none) "s1" freshCtx

/-- C6: `handleRouteSelection` parses the first integer literal of the
raw text as a 1-based index into `lastRoutes`: a valid index returns the
detail card for that route; no stored routes gives the nothing-to-select
branch; no integer or an out-of-range index gives the re-prompt carrying
the valid range bound `lastRoutes.length`; in particular "option 2"
against a one-route list yields the re-prompt, not a detail card. -/
theorem c6_selection_parsing (s : Sessions) (id msg : String) :
    ((getContext s id).1.lastRoutes = none →
      (handleRouteSelection s id msg).1 = .nothingToSelect) ∧
    ((getContext s id).1.lastRoutes = some [] →
      (handleRouteSelection s id msg).1 = .nothingToSelect) ∧
    (∀ rs, (getContext s id).1.lastRoutes = some rs → rs ≠ [] →
      (firstInt msg = none →
        (handleRouteSelection s id msg).1 = .selectionPrompt rs.length) ∧
      (∀ n, firstInt msg = some n → (n = 0 ∨ rs.length < n) →
        (handleRouteSelection s id msg).1 = .selectionPrompt rs.length) ∧
      (∀ n, firstInt msg = some n → 1 ≤ n → n ≤ rs.length →
        ∃ h : n - 1 < rs.length,
          (handleRouteSelection s id msg).1 = .selectionDetail (rs.get ⟨n - 1, h⟩))) ∧
    (handleRouteSelection c6Sessions "s1" "option 2").1 = .selectionPrompt 1 := by
  refine ⟨?_, ?_, ?_, by decide⟩
  · intro hlr
    unfold handleRouteSelection
    simp only [hlr]
  · intro hlr
    unfold handleRouteSelection
    simp only [hlr]
    rfl
  · intro rs hlr hne
    have hemp : rs.isEmpty = false := by
      cases rs with
      | nil => exact absurd rfl hne
      | cons a t => rfl
    refine ⟨?_, ?_, ?_⟩
    · intro hf
      unfold handleRouteSelection
      simp only [hlr, hemp, hf]
      rfl
    · intro n hf hout
      unfold handleRouteSelection
      simp only [hlr, hemp, hf]
      rw [if_neg, dif_neg]
      · intro hc
        rcases hc with ⟨h0, h1⟩
        omega
      · simp [hemp]
    · intro n hf h1 h2
      have hlt : n - 1 < rs.length := by omega
      refine ⟨hlt, ?_⟩
      unfold handleRouteSelection
      simp only [hlr, hemp, hf]
      rw [if_neg, dif_pos]
      · have harg : (((n : Int) - 1).toNat) = n - 1 := by omega
        exact congrArg Response.selectionDetail (congrArg rs.get (Fin.ext harg))
      · constructor <;> omega
      · simp [hemp]

/-- C6 witness: on a one-route session, "option 1" yields the detail
card, "option 2" the re-prompt with range bound 1, and with no stored
routes the nothing-to-select branch is taken. -/
theorem c6_selection_parsing_witness :
    (handleRouteSelection c6Sessions "s1" "option 1").1 = .selectionDetail c6Route ∧
    (handleRouteSelection c6Sessions "s1" "option 2").1 = .selectionPrompt 1 ∧
    (handleRouteSelection c6Empty "s1" "pick one").1 = .nothingToSelect := by
  have h1 := c6_selection_parsing c6Sessions "s1" "option 1"
  have h2 := c6_selection_parsing c6Sessions "s1" "option 2"
  have h3 := c6_selection_parsing c6Empty "s1" "pick one"
  refine ⟨?_, h2.2.2.2, h3.1 (by decide)⟩
  obtain ⟨hlt, heq⟩ :=
    (h1.2.2.1 [c6Route] (by decide) (by decide)).2.2 1 (by decide) (by decide) (by decide)
  rw [heq]
  rfl

/-! ## C7: a persistence-append failure never alters the response -/

/-- C7: the value returned by `processMessage` — response, metadata and
final session map — does not depend on the durable-append collaborator;
a failing append is caught and logged (the error line appears in the
console log) and is never surfaced to the caller. -/
theorem c7_save_failure_harmless (search : LookupFn) (saver1 saver2 : SaveFn)
    (now : CivilNow) (s : Sessions) (id msg : String) :
    (processMessage search saver1 now s id msg).text =
      (processMessage search saver2 now s id msg).text ∧
    (processMessage search saver1 now s id msg).metadata =
      (processMessage search saver2 now s id msg).metadata ∧
    (processMessage search saver1 now s id msg).sessions =
      (processMessage search saver2 now s id msg).sessions ∧
    (∀ e, saver1 id "user" = .error e →
      ("Failed to save message: " ++ e) ∈ (processMessage search saver1 now s id msg).log) := by
  refine ⟨rfl, rfl, rfl, ?_⟩
  intro e he
  have hlog : (processMessage search saver1 now s id msg).log =
      saveMessage saver1 id "user" ++ saveMessage saver1 id "assistant" := rfl
  rw [hlog]
  unfold saveMessage
  rw [he]
  simp

/-- C7 witness: with a concretely failing append collaborator the
response equals the one computed under a succeeding collaborator, and
the failure is logged. -/
theorem c7_save_failure_harmless_witness :
    (processMessage (fun _ _ _ _ => []) (fun _ _ => .error "disk full") ⟨2025, 10, 11, true⟩
        (fun _ => none) "s1" "help").text =
      (processMessage (fun _ _ _ _ => []) (fun _ _ => .ok ()) ⟨2025, 10, 11, true⟩
        (fun _ => none) "s1" "help").text ∧
    ("Failed to save message: " ++ "disk full") ∈
      (processMessage (fun _ _ _ _ => []) (fun _ _ => .error "disk full") ⟨2025, 10, 11, true⟩
        (fun _ => none) "s1" "help").log := by
  have h := c7_save_failure_harmless (fun _ _ _ _ => []) (fun _ _ => .error "disk full")
    (fun _ _ => .ok ()) ⟨2025, 10, 11, true⟩ (fun _ => none) "s1" "help"
  exact ⟨h.1, h.2.2.2 "disk full" rfl⟩

/-! ## C10: a select_route turn only performs the uniform bookkeeping -/

lemma getContext_getContext_fst (s : Sessions) (id : String) :
    (getContext (getContext s id).2 id).1 = (getContext s id).1 := by
  rcases h : s id with _ | c <;> simp [getContext, h, setSession]

lemma getContext_setSession_self (s : Sessions) (id : String) (c : SessionCtx) :
    getContext (setSession s id c) id = (c, setSession s id c) := by
  unfold getContext
  rw [setSession_self]

lemma getContext_eq_of_some {s : Sessions} {id : String} {c : SessionCtx} (h : s id = some c) :
    getContext s id = (c, s) := by
  unfold getContext
  rw [h]

/-- C10: when the detected intent is `select_route`, the turn leaves
`state` (phase), `lastRoutes` and the stored entities' accumulated
values governed only by the uniform per-message bookkeeping: the final
session record keeps the prior phase and `lastRoutes` unchanged, merges
the extracted entities, sets `lastIntent`, increments `turnCount` by
exactly the two bookkeeping updates, and appends the user and assistant
turns to the bounded history. -/
theorem c10_select_route_frame (search : LookupFn) (saver : SaveFn) (now : CivilNow)
    (s : Sessions) (id msg : String)
    (hsel : (detectIntent msg (extractEntities now msg (getContext s id).1.entities)).intent =
      "select_route") :
    (processMessage search saver now s id msg).sessions id = some
      { entities := spreadEntities (getContext s id).1.entities
          (extractEntities now msg (getContext s id).1.entities),
        lastIntent := some "select_route",
        turnCount := (getContext s id).1.turnCount + 2,
        history := capHistory (capHistory ((getContext s id).1.history ++
          [Turn.user msg]) ++ [Turn.assistant (processMessage search saver now s id msg).text]),
        lastRoutes := (getContext s id).1.lastRoutes,
        state := (getContext s id).1.state } := by
  unfold processMessage
  simp only [hsel]
  unfold dispatchIntent
  simp only [String.reduceEq, reduceIte, or_self, if_false]
  rw [handleRouteSelection_snd]
  have hS2 := updateContext_snd_at (getContext s id).2 id
    { entities := some (extractEntities now msg (getContext s id).1.entities),
      lastIntent := some "select_route", state := none, lastRoutes := none,
      message := some (Turn.user msg) }
  have hg2 := getContext_eq_of_some hS2
  rw [hg2, updateContext_snd_at]
  congr 1
  simp only [updateContext, hg2, getContext_getContext_fst, getContext_setSession_self]

/-! ### Shared concrete fixtures for the service-level witnesses -/

/-- A lookup collaborator returning no candidates. -/
def searchNone : LookupFn := fun _ _ _ _ => []

/-- An always-succeeding durable append. -/
def saveAlwaysOk : SaveFn := fun _ _ => .ok ()

/-- A fixed clock: 2025-10-11 (a Saturday), past midnight. -/
def nowFix : CivilNow := ⟨2025, 10, 11, true⟩

/-- C10 fixture: a stored route and a mid-conversation session. -/
def c10Route : ScoredRoute :=
  { id := "9", mode := "bus", operator := "MSRTC", route_name := "Shivneri",
    base_price := 300, duration_minutes := 210, schedules := [], score := 1, tags := [] }

def c10Ctx : SessionCtx :=
  { entities := { seatClass := some "ac" }, lastIntent := some "travel_search",
    turnCount := 5, history := [Turn.user "mumbai trip"],
    lastRoutes := some [c10Route], state := "showing_results" }

def c10Sessions : Sessions := setSession (fun _ => none) "s1" c10Ctx

/-- C10 witness: a concrete `select_route` turn ("option 2" against one
stored route) leaves phase and `lastRoutes` untouched and performs only
the uniform bookkeeping. -/
theorem c10_select_route_frame_witness :
    (processMessage searchNone saveAlwaysOk nowFix c10Sessions "s1" "option 2").sessions "s1" =
      some { entities := { seatClass := some "ac" },
             lastIntent := some "select_route",
             turnCount := 7,
             history := [Turn.user "mumbai trip", Turn.user "option 2",
               Turn.assistant (Response.selectionPrompt 1)],
             lastRoutes := some [c10Route],
             state := "showing_results" } := by
  have h := c10_select_route_frame searchNone saveAlwaysOk nowFix c10Sessions "s1" "option 2"
    (by decide)
  rw [h]
  decide

/-! ## C4: turnCount bookkeeping per processed message -/
lemma tcAt_handleTravelQuery (search : LookupFn) (s : Sessions) (id : String) (e : Entities) :
    tcAt s id ≤ tcAt (handleTravelQuery search s id e).2 id := by
  simp only [handleTravelQuery]
  split
  · simp only [getMissingEntities_snd, tcAt_updateContext, tcAt_getContext_snd]
    omega
  · simp only [getMissingEntities_snd, tcAt_updateContext, tcAt_getContext_snd]
    omega

lemma tcAt_handleCompareRoutes (search : LookupFn) (s : Sessions) (id : String) (e : Entities) :
    tcAt s id ≤ tcAt (handleCompareRoutes search s id e).2 id := by
  simp only [handleCompareRoutes]
  split
  all_goals try split
  all_goals
    first
      | (simp only [tcAt_getContext_snd]; omega)
      | (calc tcAt s id = tcAt (getContext s id).2 id := (tcAt_getContext_snd s id).symm
          _ ≤ _ := tcAt_handleTravelQuery search _ id e)

lemma tcAt_handlePreference (search : LookupFn) (s : Sessions) (id : String) (e : Entities) :
    tcAt s id ≤ tcAt (handlePreference search s id e).2 id := by
  simp only [handlePreference]
  split
  all_goals
    first
      | (simp only [tcAt_getContext_snd]; omega)
      | (calc tcAt s id = tcAt (getContext s id).2 id := (tcAt_getContext_snd s id).symm
          _ ≤ _ := tcAt_handleTravelQuery search _ id e)

lemma tcAt_dispatchIntent (search : LookupFn) (s : Sessions) (id msg : String)
    (e : Entities) (intent : String) (hne : intent ≠ "goodbye") :
    tcAt s id ≤ tcAt (dispatchIntent search s id msg e intent).2.1 id := by
  simp only [dispatchIntent]
  split_ifs with h1 h2 h3 h4 h5 h6 h7 h8
  · simp only [tcAt_updateContext]; omega
  · exact Nat.le_refl _
  · exact Nat.le_refl _
  · exact tcAt_handleTravelQuery search s id e
  · exact tcAt_handleCompareRoutes search s id e
  · exact tcAt_handlePreference search s id e
  · have hr := handleRouteSelection_snd s id msg
    show tcAt s id ≤ tcAt (handleRouteSelection s id msg).2 id
    rw [hr, tcAt_getContext_snd]
  · exact tcAt_handleTravelQuery search s id e
  · exact Nat.le_refl _

def c4NoSessions : Sessions := fun _ => none

/-- C4 counterexample: `updateContext` increments `turnCount` on every
call and `processMessage` calls it at least twice per message (user
turn and assistant turn), so a single "help" message takes the counter
from 0 to 2, not to 1 as the claim states. -/
theorem c4_counterexample_help_two_increments :
    tcAt c4NoSessions "s1" = 0 ∧
    tcAt (processMessage searchNone saveAlwaysOk nowFix c4NoSessions "s1" "help").sessions "s1"
      = 2 ∧ (2 : Nat) ≠ 0 + 1 := ⟨rfl, by decide, by decide⟩

/-- C4 (amended): `turnCount` is incremented once per `updateContext`
call, and `processMessage` makes at least two such calls per processed
message (the user-turn and assistant-turn bookkeeping, plus up to two
handler updates), so a non-goodbye message increases the session's
counter by at least two; a goodbye message clears the session and the
assistant-turn bookkeeping recreates it with `turnCount` exactly 1. -/
theorem c4_turnCount_amended (search : LookupFn) (saver : SaveFn) (now : CivilNow)
    (s : Sessions) (id msg : String) :
    ((detectIntent msg (extractEntities now msg (getContext s id).1.entities)).intent ≠
        "goodbye" →
      tcAt s id + 2 ≤ tcAt (processMessage search saver now s id msg).sessions id) ∧
    ((detectIntent msg (extractEntities now msg (getContext s id).1.entities)).intent =
        "goodbye" →
      tcAt (processMessage search saver now s id msg).sessions id = 1) := by
  constructor
  · intro hne
    simp only [processMessage]
    rw [tcAt_updateContext]
    have hd := tcAt_dispatchIntent search
      ((updateContext (getContext s id).2 id
        { entities := some (extractEntities now msg (getContext s id).1.entities),
          lastIntent :=
            some ((detectIntent msg (extractEntities now msg (getContext s id).1.entities)).intent),
          state := none, lastRoutes := none, message := some (Turn.user msg) }).2)
      id msg (extractEntities now msg (getContext s id).1.entities)
      ((detectIntent msg (extractEntities now msg (getContext s id).1.entities)).intent) hne
    have h2 := tcAt_updateContext (getContext s id).2 id
      { entities := some (extractEntities now msg (getContext s id).1.entities),
        lastIntent :=
          some ((detectIntent msg (extractEntities now msg (getContext s id).1.entities)).intent),
        state := none, lastRoutes := none, message := some (Turn.user msg) }
    have h3 := tcAt_getContext_snd s id
    omega
  · intro hgb
    simp only [processMessage, hgb]
    unfold dispatchIntent
    simp only [String.reduceEq, reduceIte, or_self, if_false]
    rw [tcAt_updateContext, tcAt_clearContext]

/-- C4 witness: a "help" message takes the counter from 0 to at least
2, and a "bye" message leaves the recreated session at exactly 1. -/
theorem c4_turnCount_amended_witness :
    tcAt c4NoSessions "s1" + 2 ≤
      tcAt (processMessage searchNone saveAlwaysOk nowFix c4NoSessions "s1" "help").sessions
        "s1" ∧
    tcAt (processMessage searchNone saveAlwaysOk nowFix c4NoSessions "s1" "bye").sessions "s1"
      = 1 :=
  ⟨(c4_turnCount_amended searchNone saveAlwaysOk nowFix c4NoSessions "s1" "help").1 (by decide),
   (c4_turnCount_amended searchNone saveAlwaysOk nowFix c4NoSessions "s1" "bye").2 (by decide)⟩

/-! ## C5: what a goodbye turn actually does to the session -/

def entAt (s : Sessions) (id : String) : Option Entities := (s id).map SessionCtx.entities

lemma entAt_getContext_snd (s : Sessions) (id : String) :
    entAt (getContext s id).2 id = some ((getContext s id).1.entities) := by
  rcases h : s id with _ | c <;> simp [getContext, entAt, h, setSession]

lemma updateContext_fst_entities (s : Sessions) (id : String) (u : Updates)
    (hu : u.entities = none) :
    (updateContext s id u).1.entities = (getContext s id).1.entities := by
  simp [updateContext, hu]

lemma entAt_updateContext (s : Sessions) (id : String) (u : Updates) (hu : u.entities = none) :
    entAt (updateContext s id u).2 id = some ((getContext s id).1.entities) := by
  unfold entAt
  rw [updateContext_snd_at]
  simp [updateContext_fst_entities s id u hu]

lemma getContext_updateContext_fst (s : Sessions) (id : String) (u : Updates) :
    (getContext (updateContext s id u).2 id).1 = (updateContext s id u).1 := by
  rw [getContext_eq_of_some (updateContext_snd_at s id u)]

lemma entAt_handleTravelQuery (search : LookupFn) (s : Sessions) (id : String) (e : Entities) :
    entAt (handleTravelQuery search s id e).2 id = some ((getContext s id).1.entities) := by
  simp only [handleTravelQuery]
  split
  · simp only [getMissingEntities_snd]
    rw [entAt_updateContext _ _ _ rfl, getContext_getContext_fst]
  · simp only [getMissingEntities_snd]
    rw [entAt_updateContext _ _ _ rfl, getContext_updateContext_fst,
      updateContext_fst_entities _ _ _ rfl, getContext_getContext_fst]

lemma entAt_handleCompareRoutes (search : LookupFn) (s : Sessions) (id : String) (e : Entities) :
    entAt (handleCompareRoutes search s id e).2 id = some ((getContext s id).1.entities) := by
  simp only [handleCompareRoutes]
  split
  · exact entAt_getContext_snd s id
  · split
    · rw [entAt_handleTravelQuery, getContext_getContext_fst]
    · exact entAt_getContext_snd s id

lemma entAt_handlePreference (search : LookupFn) (s : Sessions) (id : String) (e : Entities) :
    entAt (handlePreference search s id e).2 id = some ((getContext s id).1.entities) := by
  simp only [handlePreference]
  split
  · rw [entAt_handleTravelQuery, getContext_getContext_fst]
  · exact entAt_getContext_snd s id

lemma entAt_dispatchIntent (search : LookupFn) (s : Sessions) (id msg : String)
    (e : Entities) (intent : String) (hne : intent ≠ "goodbye") (hsome : (s id).isSome) :
    entAt (dispatchIntent search s id msg e intent).2.1 id =
      some ((getContext s id).1.entities) := by
  obtain ⟨c, hc⟩ := Option.isSome_iff_exists.mp hsome
  simp only [dispatchIntent]
  split_ifs with h1 h2 h3 h4 h5 h6 h7 h8
  · show entAt (updateContext s id
      { entities := none, lastIntent := none, state := some "idle", lastRoutes := none,
        message := none }).2 id = some ((getContext s id).1.entities)
    rw [entAt_updateContext _ _ _ rfl]
  · show entAt s id = some ((getContext s id).1.entities)
    simp [entAt, hc, getContext]
  · show entAt s id = some ((getContext s id).1.entities)
    simp [entAt, hc, getContext]
  · exact entAt_handleTravelQuery search s id e
  · exact entAt_handleCompareRoutes search s id e
  · exact entAt_handlePreference search s id e
  · show entAt (handleRouteSelection s id msg).2 id = some ((getContext s id).1.entities)
    rw [handleRouteSelection_snd]
    exact entAt_getContext_snd s id
  · exact entAt_handleTravelQuery search s id e
  · show entAt s id = some ((getContext s id).1.entities)
    simp [entAt, hc, getContext]

lemma getContext_clearContext (s : Sessions) (id : String) :
    getContext (clearContext s id) id =
      (freshCtx, setSession (clearContext s id) id freshCtx) := by
  unfold getContext
  rw [clearContext_at]

/-- C5 (amended): the goodbye branch clears the session via
`clearContext` (all accumulated entities, lastIntent, turnCount,
history, lastRoutes and phase are discarded), but the assistant-turn
bookkeeping that follows recreates a fresh session holding only the
goodbye reply, with `turnCount` 1 and otherwise initial state; on every
non-goodbye branch nothing is discarded — the accumulated entities
survive the turn (merged with the new extraction), `clearContext` being
invoked on no other branch. -/
theorem c5_goodbye_amended (search : LookupFn) (saver : SaveFn) (now : CivilNow)
    (s : Sessions) (id msg : String) :
    ((detectIntent msg (extractEntities now msg (getContext s id).1.entities)).intent =
        "goodbye" →
      (processMessage search saver now s id msg).sessions id = some
        { entities := {}, lastIntent := none, turnCount := 1,
          history := [Turn.assistant Response.goodbye], lastRoutes := none, state := "idle" } ∧
      (processMessage search saver now s id msg).text = Response.goodbye) ∧
    ((detectIntent msg (extractEntities now msg (getContext s id).1.entities)).intent ≠
        "goodbye" →
      entAt (processMessage search saver now s id msg).sessions id =
        some (spreadEntities (getContext s id).1.entities
          (extractEntities now msg (getContext s id).1.entities))) := by
  constructor
  · intro hgb
    constructor
    · simp only [processMessage, hgb]
      unfold dispatchIntent
      simp only [String.reduceEq, reduceIte, or_self, if_false]
      rw [updateContext_snd_at]
      congr 1
      simp only [updateContext, getContext_clearContext, capHistory, freshCtx]
      norm_num
    · simp only [processMessage, hgb]
      unfold dispatchIntent
      simp only [String.reduceEq, reduceIte, or_self, if_false]
  · intro hne
    simp only [processMessage]
    rw [entAt_updateContext _ _ _ rfl]
    have hsomeS2 : ((updateContext (getContext s id).2 id
        { entities := some (extractEntities now msg (getContext s id).1.entities),
          lastIntent :=
            some ((detectIntent msg (extractEntities now msg (getContext s id).1.entities)).intent),
          state := none, lastRoutes := none, message := some (Turn.user msg) }).2 id).isSome := by
      rw [updateContext_snd_at]
      rfl
    have hdisp := entAt_dispatchIntent search
      ((updateContext (getContext s id).2 id
        { entities := some (extractEntities now msg (getContext s id).1.entities),
          lastIntent :=
            some ((detectIntent msg (extractEntities now msg (getContext s id).1.entities)).intent),
          state := none, lastRoutes := none, message := some (Turn.user msg) }).2)
      id msg (extractEntities now msg (getContext s id).1.entities)
      ((detectIntent msg (extractEntities now msg (getContext s id).1.entities)).intent) hne
      hsomeS2
    unfold entAt at hdisp
    rcases hx : (dispatchIntent search
        ((updateContext (getContext s id).2 id
          { entities := some (extractEntities now msg (getContext s id).1.entities),
            lastIntent :=
              some ((detectIntent msg (extractEntities now msg (getContext s id).1.entities)).intent),
            state := none, lastRoutes := none, message := some (Turn.user msg) }).2)
        id msg (extractEntities now msg (getContext s id).1.entities)
        ((detectIntent msg (extractEntities now msg (getContext s id).1.entities)).intent)).2.1
        id with _ | c
    · rw [hx] at hdisp
      simp at hdisp
    · rw [hx] at hdisp
      simp at hdisp
      rw [getContext_eq_of_some hx]
      congr 1
      show c.entities = _
      rw [hdisp, getContext_updateContext_fst]
      simp only [updateContext]
      rw [getContext_getContext_fst]

/-- C5 fixture: a session rich in accumulated state (no location slots,
so that "bye" still classifies as goodbye). -/
def c5Route : ScoredRoute :=
  { id := "4", mode := "train", operator := "Indian Railways", route_name := "Intercity",
    base_price := 200, duration_minutes := 150, schedules := [], score := 1, tags := [] }

def c5Ctx : SessionCtx :=
  { entities := { seatClass := some "ac", budgetPreference := some "budget" },
    lastIntent := some "travel_search", turnCount := 5,
    history := [Turn.user "plans"], lastRoutes := some [c5Route],
    state := "showing_results" }

def c5Sessions : Sessions := setSession (fun _ => none) "s1" c5Ctx

/-- C5 counterexample: after processing "bye" the per-session state has
NOT been discarded entirely — the map still holds a session for the id,
recreated by the assistant-turn bookkeeping with `turnCount` 1 and the
goodbye reply in its history. -/
theorem c5_counterexample_session_recreated :
    c5Sessions "s1" = some c5Ctx ∧
    (processMessage searchNone saveAlwaysOk nowFix c5Sessions "s1" "bye").sessions "s1" =
      some { entities := {}, lastIntent := none, turnCount := 1,
             history := [Turn.assistant Response.goodbye], lastRoutes := none,
             state := "idle" } ∧
    ((processMessage searchNone saveAlwaysOk nowFix c5Sessions "s1" "bye").sessions "s1" ≠
      none) :=
  ⟨rfl, by decide, by decide⟩

/-- C5 witness: the amended theorem applied to the concrete goodbye
turn, and entity preservation applied to a concrete non-goodbye turn. -/
theorem c5_goodbye_amended_witness :
    (processMessage searchNone saveAlwaysOk nowFix c5Sessions "s1" "bye").sessions "s1" =
      some { entities := {}, lastIntent := none, turnCount := 1,
             history := [Turn.assistant Response.goodbye], lastRoutes := none,
             state := "idle" } ∧
    entAt (processMessage searchNone saveAlwaysOk nowFix c5Sessions "s1" "thanks").sessions
        "s1" =
      some (spreadEntities (getContext c5Sessions "s1").1.entities
        (extractEntities nowFix "thanks" (getContext c5Sessions "s1").1.entities)) :=
  ⟨((c5_goodbye_amended searchNone saveAlwaysOk nowFix c5Sessions "s1" "bye").1
      (by decide)).1,
   (c5_goodbye_amended searchNone saveAlwaysOk nowFix c5Sessions "s1" "thanks").2 (by decide)⟩
